import Mathlib

/-!
Verification development for the `claude-marketplace` repository.

The repository contains two Python command-line pipelines:

* Pipeline A (`dependency_evaluator.py`): a package evaluator that shells out
  to package-manager CLIs and registry REST APIs and assembles a JSON report.
* Pipeline B (`workflow_analyzer.py`): a session-log analyzer that parses
  JSONL conversation records and renders a Markdown report.

This file gives a shallow embedding of both pipelines.  External effects
(subprocess execution, HTTP GET, file reads, the wall clock) are modelled by
explicit outcome values supplied through environment records; everything the
Python code computes from those outcomes is translated faithfully.  Python
exceptions that the source does not catch are modelled with `Except`; the
mutable `self.errors` / `self.warnings` lists are threaded as explicit state.
Strings are modelled by Lean `String` / `List Char` (Python code points map to
`Char`); case conversion is modelled on ASCII, which covers every string the
source compares case-insensitively.
-/

/-! ## JSON values and Python-style helpers -/

/-- A parsed JSON value, as produced by Python's `json.loads`.  `num` carries
an exact rational (Python distinguishes int/float; no code in this repository
observes that distinction).  `nan` and `inf` model the non-standard `NaN`,
`Infinity` and `-Infinity` literals that Python's parser accepts. -/
inductive JValue where
  | null : JValue
  | bool : Bool → JValue
  | num : ℚ → JValue
  | str : String → JValue
  | arr : List JValue → JValue
  | obj : List (String × JValue) → JValue
  | nan : JValue
  | inf : Bool → JValue

/-- Python truthiness of a JSON value (`bool(x)`). -/
def truthy : JValue → Bool
  | .null => false
  | .bool b => b
  | .num q => !(q == 0)
  | .str s => !(s == "")
  | .arr l => !l.isEmpty
  | .obj l => !l.isEmpty
  | .nan => true
  | .inf _ => true

/-- Lookup in a JSON object's field list (fields have unique keys because
`dictSet` below is used to build them, mirroring Python `dict`). -/
def jlook : List (String × JValue) → String → Option JValue
  | [], _ => none
  | (k', v') :: t, k => if k' == k then some v' else jlook t k

/-- Python `dict` assignment `d[k] = v`: replaces the value in place if the
key is present (keeping first-insertion order), otherwise appends. -/
def dictSet : List (String × JValue) → String → JValue → List (String × JValue)
  | [], k, v => [(k, v)]
  | (k', v') :: t, k, v => if k' == k then (k, v) :: t else (k', v') :: dictSet t k v

/-- Python `k in d` for an object's field list. -/
def dictMem (l : List (String × JValue)) (k : String) : Bool :=
  (jlook l k).isSome

/-! ## A model of Python's `json.loads`

Fuel-based recursive-descent parser mirroring `json.decoder`: the same
whitespace set, the same escape sequences (including surrogate pairs; a lone
surrogate, which Lean's `Char` cannot carry, maps through `Char.ofNat` to
`'\0'`), strict rejection of unescaped control characters, and the strict
number grammar `-?(0|[1-9]\d*)(\.\d+)?([eE][+-]?\d+)?` where a malformed
fraction or exponent is simply left unconsumed.  The fuel passed by
`json_loads` strictly dominates the number of recursive calls, every one of
which consumes at least one character. -/

/-- The whitespace characters `json.decoder` skips. -/
def jws (c : Char) : Bool := c == ' ' || c == '\t' || c == '\n' || c == '\r'

/-- Value of a hexadecimal digit. -/
def hexVal : Char → Option Nat := fun c =>
  if '0' ≤ c ∧ c ≤ '9' then some (c.toNat - 48)
  else if 'a' ≤ c ∧ c ≤ 'f' then some (c.toNat - 87)
  else if 'A' ≤ c ∧ c ≤ 'F' then some (c.toNat - 55)
  else none

/-- Four hexadecimal digits, as in a `\uXXXX` escape. -/
def parseHex4 : List Char → Option (Nat × List Char)
  | a :: b :: c :: d :: r => do
    let x ← hexVal a
    let y ← hexVal b
    let z ← hexVal c
    let w ← hexVal d
    pure (x * 4096 + y * 256 + z * 16 + w, r)
  | _ => none

/-- Body of a JSON string, after the opening quote. -/
def parseJString : Nat → List Char → List Char → Option (List Char × List Char)
  | 0, _, _ => none
  | _ + 1, [], _ => none
  | _ + 1, '"' :: r, acc => some (acc.reverse, r)
  | fuel + 1, '\\' :: r, acc =>
    match r with
    | '"' :: r2 => parseJString fuel r2 ('"' :: acc)
    | '\\' :: r2 => parseJString fuel r2 ('\\' :: acc)
    | '/' :: r2 => parseJString fuel r2 ('/' :: acc)
    | 'b' :: r2 => parseJString fuel r2 ('\x08' :: acc)
    | 'f' :: r2 => parseJString fuel r2 ('\x0c' :: acc)
    | 'n' :: r2 => parseJString fuel r2 ('\n' :: acc)
    | 'r' :: r2 => parseJString fuel r2 ('\x0d' :: acc)
    | 't' :: r2 => parseJString fuel r2 ('\t' :: acc)
    | 'u' :: r2 =>
      match parseHex4 r2 with
      | some (n, r3) =>
        if 0xD800 ≤ n ∧ n ≤ 0xDBFF then
          match r3 with
          | '\\' :: 'u' :: r4 =>
            match parseHex4 r4 with
            | some (m, r5) =>
              if 0xDC00 ≤ m ∧ m ≤ 0xDFFF then
                parseJString fuel r5
                  (Char.ofNat (0x10000 + (n - 0xD800) * 0x400 + (m - 0xDC00)) :: acc)
              else parseJString fuel r3 (Char.ofNat n :: acc)
            | none => parseJString fuel r3 (Char.ofNat n :: acc)
          | _ => parseJString fuel r3 (Char.ofNat n :: acc)
        else parseJString fuel r3 (Char.ofNat n :: acc)
      | none => none
    | _ => none
  | fuel + 1, c :: r, acc =>
    if c.toNat < 0x20 then none else parseJString fuel r (c :: acc)

/-- Decimal value of a digit run. -/
def digitsVal (l : List Char) : Nat :=
  l.foldl (fun a c => a * 10 + (c.toNat - 48)) 0

/-- Optional exponent part.  `orig` is the input before the `e`/`E`, returned
unconsumed when the exponent is malformed (the regex group simply fails to
extend the match). -/
def parseExp (q : ℚ) (orig r2 : List Char) : ℚ × List Char :=
  let (eneg, r3) :=
    match r2 with
    | '+' :: t => (false, t)
    | '-' :: t => (true, t)
    | _ => (false, r2)
  let ds := List.takeWhile Char.isDigit r3
  if ds.isEmpty then (q, orig)
  else
    let e := digitsVal ds
    (if eneg then q / (10 : ℚ) ^ e else q * (10 : ℚ) ^ e, List.drop ds.length r3)

/-- Optional fraction and exponent after the integer part `ip`. -/
def parseFracExp (ip : Nat) (r : List Char) : ℚ × List Char :=
  let (q1, r1) :=
    match r with
    | '.' :: r2 =>
      let ds := List.takeWhile Char.isDigit r2
      if ds.isEmpty then ((ip : ℚ), r)
      else ((ip : ℚ) + (digitsVal ds : ℚ) / (10 : ℚ) ^ ds.length, List.drop ds.length r2)
    | _ => ((ip : ℚ), r)
  match r1 with
  | 'e' :: r2 => parseExp q1 r1 r2
  | 'E' :: r2 => parseExp q1 r1 r2
  | _ => (q1, r1)

/-- Unsigned number: `0` or a nonzero-led digit run, then fraction/exponent. -/
def parseUNum : List Char → Option (ℚ × List Char)
  | '0' :: r => some (parseFracExp 0 r)
  | c :: r =>
    if c.isDigit then
      let ds := List.takeWhile Char.isDigit (c :: r)
      some (parseFracExp (digitsVal ds) (List.drop ds.length (c :: r)))
    else none
  | [] => none

/-- A JSON number with optional leading minus sign. -/
def parseNum : List Char → Option (ℚ × List Char)
  | '-' :: r => (parseUNum r).map fun p => (-p.1, p.2)
  | s => parseUNum s

mutual

/-- One JSON value at the head of the input (whitespace already skipped). -/
def parseValue : Nat → List Char → Option (JValue × List Char)
  | 0, _ => none
  | fuel + 1, s =>
    match s with
    | 't' :: 'r' :: 'u' :: 'e' :: r => some (.bool true, r)
    | 'f' :: 'a' :: 'l' :: 's' :: 'e' :: r => some (.bool false, r)
    | 'n' :: 'u' :: 'l' :: 'l' :: r => some (.null, r)
    | 'N' :: 'a' :: 'N' :: r => some (.nan, r)
    | 'I' :: 'n' :: 'f' :: 'i' :: 'n' :: 'i' :: 't' :: 'y' :: r => some (.inf false, r)
    | '-' :: 'I' :: 'n' :: 'f' :: 'i' :: 'n' :: 'i' :: 't' :: 'y' :: r => some (.inf true, r)
    | '"' :: r =>
      match parseJString (r.length + 1) r [] with
      | some (cs, rest) => some (.str (String.mk cs), rest)
      | none => none
    | '[' :: r => parseArrBody fuel r
    | '{' :: r => parseObjBody fuel r
    | c :: _ =>
      if c == '-' || c.isDigit then
        match parseNum s with
        | some (q, rest) => some (.num q, rest)
        | none => none
      else none
    | [] => none

/-- Array body after `[`. -/
def parseArrBody : Nat → List Char → Option (JValue × List Char)
  | 0, _ => none
  | fuel + 1, s =>
    match List.dropWhile jws s with
    | ']' :: r => some (.arr [], r)
    | s1 => parseArrElems fuel s1 []

/-- Array elements, comma separated. -/
def parseArrElems : Nat → List Char → List JValue → Option (JValue × List Char)
  | 0, _, _ => none
  | fuel + 1, s, acc =>
    match parseValue fuel (List.dropWhile jws s) with
    | some (v, r) =>
      match List.dropWhile jws r with
      | ',' :: r2 => parseArrElems fuel r2 (v :: acc)
      | ']' :: r2 => some (.arr (v :: acc).reverse, r2)
      | _ => none
    | none => none

/-- Object body after `{`. -/
def parseObjBody : Nat → List Char → Option (JValue × List Char)
  | 0, _ => none
  | fuel + 1, s =>
    match List.dropWhile jws s with
    | '}' :: r => some (.obj [], r)
    | s1 => parseObjElems fuel s1 []

/-- Object members: string key, colon, value; a repeated key overwrites the
earlier one in place, as in Python `dict`. -/
def parseObjElems : Nat → List Char → List (String × JValue) → Option (JValue × List Char)
  | 0, _, _ => none
  | fuel + 1, s, acc =>
    match List.dropWhile jws s with
    | '"' :: r =>
      match parseJString (r.length + 1) r [] with
      | some (key, r1) =>
        match List.dropWhile jws r1 with
        | ':' :: r2 =>
          match parseValue fuel (List.dropWhile jws r2) with
          | some (v, r3) =>
            match List.dropWhile jws r3 with
            | ',' :: r4 => parseObjElems fuel r4 (dictSet acc (String.mk key) v)
            | '}' :: r4 => some (.obj (dictSet acc (String.mk key) v), r4)
            | _ => none
          | none => none
        | _ => none
      | none => none
    | _ => none

end

/-- Python `json.loads`: parse one value, then require only whitespace to
remain (otherwise `Extra data`); `none` models a raised `JSONDecodeError`. -/
def json_loads (s : String) : Option JValue :=
  match parseValue (2 * s.length + 8) (List.dropWhile jws s.data) with
  | some (v, rest) => if (List.dropWhile jws rest).isEmpty then some v else none
  | none => none

/-! ## Python string helpers used by the evaluator -/

/-- ASCII lowering of one character; `str.lower()` restricted to ASCII, which
covers every comparison the source performs. -/
def lowerChar (c : Char) : Char :=
  if 'A' ≤ c ∧ c ≤ 'Z' then Char.ofNat (c.toNat + 32) else c

/-- Python `s.lower()` (ASCII model). -/
def pyLower (s : String) : String := String.mk (s.data.map lowerChar)

/-- The whitespace set of Python `str.strip()` (ASCII). -/
def pyWsChar (c : Char) : Bool :=
  c == ' ' || c == '\t' || c == '\n' || c == '\x0d' || c == '\x0b' || c == '\x0c'

/-- Python `s.strip()`. -/
def pyStrip (s : String) : String :=
  String.mk (((s.data.dropWhile pyWsChar).reverse.dropWhile pyWsChar).reverse)

/-- Python `s.startswith(pre)` (a code-point prefix test). -/
def pyStartsWith (s pre : String) : Bool := pre.data.isPrefixOf s.data

/-- Python `s.isdigit()` (ASCII digits). -/
def pyIsDigit (s : String) : Bool :=
  !s.data.isEmpty && s.data.all Char.isDigit

/-- Does `sub` occur inside `s` (Python `sub in s` on strings)? -/
def listInfix (sub : List Char) : List Char → Bool
  | [] => sub.isEmpty
  | c :: rest => sub.isPrefixOf (c :: rest) || listInfix sub rest

/-- Python `sub in s` for strings. -/
def strIn (sub s : String) : Bool := listInfix sub.data s.data

/-- Python `s.replace(old, new)` on character lists: rewrite non-overlapping
occurrences left to right.  The fuel dominates the input length; each step
consumes at least one character when `old` is nonempty. -/
def pyReplaceL (old new : List Char) : Nat → List Char → List Char
  | 0, s => s
  | _ + 1, [] => []
  | fuel + 1, c :: t =>
    if old.isPrefixOf (c :: t) then new ++ pyReplaceL old new fuel (List.drop old.length (c :: t))
    else c :: pyReplaceL old new fuel t

/-- Python `s.replace(old, new)` (the source never calls it with `old = ''`). -/
def pyReplace (s old new : String) : String :=
  if old == "" then s
  else String.mk (pyReplaceL old.data new.data (s.data.length + 1) s.data)

/-- Python's non-overlapping `s.count(sub)` for a nonempty `sub`. -/
def countSubL (sub : List Char) : Nat → List Char → Nat
  | 0, _ => 0
  | _ + 1, [] => 0
  | fuel + 1, c :: t =>
    if sub.isPrefixOf (c :: t) then 1 + countSubL sub fuel (List.drop sub.length (c :: t))
    else countSubL sub fuel t

/-- Python `s.count(sub)` (the source only counts the nonempty `"git"`). -/
def strCount (s sub : String) : Nat := countSubL sub.data (s.data.length + 1) s.data

/-! ## Dynamic (Python) operations on JSON values

The evaluator indexes whatever `json.loads` returned without checking its
shape first; an operation applied to a value of the wrong runtime type raises
an exception that nothing in the source catches.  These helpers model exactly
that: `Except` failure is an uncaught Python exception. -/

/-- Uncaught Python exception kinds raised by the evaluator's dynamic code. -/
inductive PyErr where
  | attributeError : PyErr
  | typeError : PyErr
  | keyError : PyErr
  | indexError : PyErr

/-- Python `x.get(k, d)` where `x` may not be a `dict`
(`AttributeError` if it is not). -/
def pyGetD (j : JValue) (k : String) (d : JValue) : Except PyErr JValue :=
  match j with
  | .obj l => pure ((jlook l k).getD d)
  | _ => throw .attributeError

/-- Python `len(x)` (`TypeError` on numbers, booleans and `None`). -/
def pyLen : JValue → Except PyErr Nat
  | .obj l => pure l.length
  | .arr l => pure l.length
  | .str s => pure s.length
  | _ => throw .typeError

/-- Python `k in x` for a string `k` (`TypeError` when `x` supports no
membership test). -/
def pyContains (k : String) : JValue → Except PyErr Bool
  | .obj l => pure (dictMem l k)
  | .arr l => pure (l.any fun v => match v with | .str s => s == k | _ => false)
  | .str s => pure (strIn k s)
  | _ => throw .typeError

/-- Python `x[k]` for a string key `k` (`KeyError` when missing from a dict,
`TypeError` on sequences and scalars). -/
def pySubscript (j : JValue) (k : String) : Except PyErr JValue :=
  match j with
  | .obj l =>
    match jlook l k with
    | some v => pure v
    | none => throw .keyError
  | _ => throw .typeError

/-- Python `x[0]`. -/
def pyIndex0 : JValue → Except PyErr JValue
  | .arr (x :: _) => pure x
  | .arr [] => throw .indexError
  | .str s =>
    match s.data with
    | c :: _ => pure (.str (String.mk [c]))
    | [] => throw .indexError
  | .obj _ => throw .keyError
  | _ => throw .typeError

/-- Python `for v in x` (`TypeError` on non-iterables; a dict yields its
keys, a string its characters). -/
def pyIter : JValue → Except PyErr (List JValue)
  | .arr l => pure l
  | .obj l => pure (l.map fun p => .str p.1)
  | .str s => pure (s.data.map fun c => .str (String.mk [c]))
  | _ => throw .typeError

/-! ## DependencyEvaluator: state, command runner, URL fetcher

`self.errors` / `self.warnings` are the evaluator's only mutable state and are
threaded explicitly.  A subprocess invocation and an HTTP GET are external
effects; their outcomes are inputs to the model. -/

/-- The field list of a Python `dict` built by the evaluator. -/
abbrev JObj := List (String × JValue)

/-- The accumulated `self.errors` and `self.warnings` lists. -/
structure EvalState where
  errors : List String
  warnings : List String

/-- Append to `self.warnings`. -/
def addWarning (st : EvalState) (w : String) : EvalState :=
  { st with warnings := st.warnings ++ [w] }

/-- Append to `self.errors`. -/
def addError (st : EvalState) (e : String) : EvalState :=
  { st with errors := st.errors ++ [e] }

/-- Outcome of one `subprocess.run` invocation: normal completion with an
exit status, `TimeoutExpired`, `FileNotFoundError`, or any other exception. -/
inductive CmdOutcome where
  | completed : Int → String → String → CmdOutcome
  | timedOut : CmdOutcome
  | notFound : CmdOutcome
  | exc : String → CmdOutcome

/-- The warning `run_command` records on `subprocess.TimeoutExpired`. -/
def timedOutMsg (tmo : Nat) (cmdStr : String) : String :=
  s!"Command timed out after {tmo}s: {cmdStr}"

/-- The warning (and stderr text) `run_command` produces on
`FileNotFoundError`. -/
def notFoundMsg (c0 : String) : String := s!"Command not found: {c0}"

/-- The warning `run_command` records on any other exception. -/
def cmdFailedMsg (cmdStr m : String) : String := s!"Command failed: {cmdStr} - {m}"

/-- `DependencyEvaluator.run_command`: returns `(success, stdout, stderr)`
with `success` true only on a zero exit status; a timeout, missing
executable, or other exception records a warning and never raises. -/
def run_command (o : CmdOutcome) (cmd : List String) (tmo : Nat)
    (st : EvalState) : (Bool × String × String) × EvalState :=
  let cmdStr := String.intercalate " " cmd
  match o with
  | .completed rc out err => ((rc == 0, out, err), st)
  | .timedOut =>
    ((false, "", s!"Timeout after {tmo}s"), addWarning st (timedOutMsg tmo cmdStr))
  | .notFound =>
    let c0 := cmd.headD ""
    ((false, "", notFoundMsg c0), addWarning st (notFoundMsg c0))
  | .exc m =>
    ((false, "", m), addWarning st (cmdFailedMsg cmdStr m))

/-- Outcome of one `urllib.request.urlopen` GET: a decoded UTF-8 body, an
`HTTPError` with a status code, a `URLError`, or any other exception (the
carried strings stand for Python's `str(e)`). -/
inductive FetchOutcome where
  | success : String → FetchOutcome
  | httpError : Nat → FetchOutcome
  | urlError : String → FetchOutcome
  | otherExc : String → FetchOutcome

/-- `DependencyEvaluator.fetch_url`: parses the body as JSON; classifies
failures (404 → error, 403 → warning, other HTTP codes / network errors /
malformed JSON / anything else → warning) and never raises.  The
`JSONDecodeError` text appended after the colon in the source's message is
not modelled. -/
def fetch_url (o : FetchOutcome) (url : String) (st : EvalState) :
    Option JValue × EvalState :=
  match o with
  | .success body =>
    match json_loads body with
    | some j => (some j, st)
    | none => (none, addWarning st s!"Invalid JSON from {url}: ")
  | .httpError code =>
    if code == 404 then (none, addError st s!"Resource not found: {url}")
    else if code == 403 then (none, addWarning st s!"Access forbidden (rate limit?): {url}")
    else (none, addWarning st s!"HTTP {code} error fetching {url}")
  | .urlError m => (none, addWarning st s!"Network error fetching {url}: {m}")
  | .otherExc m => (none, addWarning st s!"Error fetching {url}: {m}")

/-! ## RepositoryLinker: `extract_github_repo`

The source tries, in order, the Python regexes
`github\.com[:/]([^/]+)/([^/\.]+)` and `github\.com/([^/]+)/([^/\.]+)` with
`re.search` and strips `".git"` from the repo group via `str.replace`.
`re.search` semantics are modelled directly: scan for the leftmost starting
position where the pattern matches.  At such a position the greedy `[^/]+`
group can only match the maximal slash-free run (any shorter match is
followed by a non-slash character, so the mandatory `/` fails), and the final
greedy `([^/\.]+)` group matches the maximal dot-and-slash-free run. -/

/-- The characters of the literal `github.com`. -/
def ghChars : List Char :=
  ['g', 'i', 't', 'h', 'u', 'b', '.', 'c', 'o', 'm']

/-- The shared group suffix `([^/]+)/([^/\.]+)` of both patterns, matched
against the input after `github.com` and the delimiter: the greedy `[^/]+`
can only be the maximal slash-free run (followed by the mandatory `/`), and
the final greedy group is the maximal dot-and-slash-free run. -/
def matchGroups (rest : List Char) : Option (List Char × List Char) :=
  let owner := rest.takeWhile fun a => !(a == '/')
  match rest.dropWhile (fun a => !(a == '/')) with
  | c2 :: rest2 =>
    if c2 == '/' && !owner.isEmpty then
      let repo := rest2.takeWhile fun a => !(a == '/' || a == '.')
      if repo.isEmpty then none else some (owner, repo)
    else none
  | [] => none

/-- Match `github\.com[:/]([^/]+)/([^/\.]+)` anchored at the head of `s`. -/
def matchP1At (s : List Char) : Option (List Char × List Char) :=
  if ghChars.isPrefixOf s then
    match s.drop 10 with
    | c :: rest => if c == ':' || c == '/' then matchGroups rest else none
    | [] => none
  else none

/-- `re.search` for the first pattern: leftmost matching position. -/
def searchP1 : List Char → Option (List Char × List Char)
  | [] => none
  | c :: rest =>
    match matchP1At (c :: rest) with
    | some r => some r
    | none => searchP1 rest

/-- Match `github\.com/([^/]+)/([^/\.]+)` anchored at the head of `s`. -/
def matchP2At (s : List Char) : Option (List Char × List Char) :=
  if ghChars.isPrefixOf s then
    match s.drop 10 with
    | c :: rest => if c == '/' then matchGroups rest else none
    | [] => none
  else none

/-- `re.search` for the second pattern. -/
def searchP2 : List Char → Option (List Char × List Char)
  | [] => none
  | c :: rest =>
    match matchP2At (c :: rest) with
    | some r => some r
    | none => searchP2 rest

/-- `DependencyEvaluator.extract_github_repo`: owner/repo from a GitHub URL,
or `none` when the URL is empty or neither pattern matches. -/
def extract_github_repo (repo_url : String) : Option (String × String) :=
  if repo_url == "" then none
  else
    match searchP1 repo_url.data with
    | some (o, r) => some (String.mk o, pyReplace (String.mk r) ".git" "")
    | none =>
      match searchP2 repo_url.data with
      | some (o, r) => some (String.mk o, pyReplace (String.mk r) ".git" "")
      | none => none

/-! ## Ecosystem adapters

Each `gather_*_data` is translated statement by statement.  `try` blocks
catch exactly `json.JSONDecodeError`; an `AttributeError`/`TypeError` raised
by indexing an unexpectedly shaped payload propagates (modelled by `throw`).
After the first successful `.get` on a parsed payload the payload is known to
be a `dict`, so the remaining lookups on it are total. -/

/-- Outcomes for every external interaction one `evaluate()` run can make,
plus the wall-clock timestamp. -/
structure GithubEnv where
  ghRepo : CmdOutcome
  apiFallback : FetchOutcome
  community : CmdOutcome
  contributors : CmdOutcome
  licenseCmd : CmdOutcome

structure EvalEnv where
  npmView : CmdOutcome
  npmTime : CmdOutcome
  npmVersions : CmdOutcome
  pypi : FetchOutcome
  cargoCrate : FetchOutcome
  cargoVersions : FetchOutcome
  goList : CmdOutcome
  gh : GithubEnv
  timestamp : String

/-- `gather_npm_data`: three sequential `npm view` calls. -/
def gather_npm_data (env : EvalEnv) (pkg : String) (st : EvalState) :
    Except PyErr (JObj × EvalState) := do
  let data : JObj := []
  let ((success, stdout, _), st) :=
    run_command env.npmView ["npm", "view", pkg, "--json"] 30 st
  let (data, st) ←
    if success && !(stdout == "") then
      match json_loads stdout with
      | some npm_data =>
        match npm_data with
        | .obj nl => do
          let data := dictSet data "latest_version" ((jlook nl "version").getD (.str ""))
          let data := dictSet data "license" ((jlook nl "license").getD (.str ""))
          let data := dictSet data "description" ((jlook nl "description").getD (.str ""))
          let data := dictSet data "homepage" ((jlook nl "homepage").getD (.str ""))
          let repoVal := (jlook nl "repository").getD .null
          let repoUrl ←
            match repoVal with
            | .obj rl => pure ((jlook rl "url").getD (.str ""))
            | _ => pure ((jlook nl "repository").getD (.str ""))
          let data := dictSet data "repository_url" repoUrl
          let data := dictSet data "maintainers" ((jlook nl "maintainers").getD (.arr []))
          let data := dictSet data "keywords" ((jlook nl "keywords").getD (.arr []))
          pure (data, st)
        | _ => throw .attributeError
      | none => pure (data, addWarning st "Failed to parse npm view output")
    else pure (data, st)
  let ((success, stdout, _), st) :=
    run_command env.npmTime ["npm", "view", pkg, "time", "--json"] 30 st
  let (data, st) ←
    if success && !(stdout == "") then
      match json_loads stdout with
      | some time_data =>
        match time_data with
        | .obj tl => do
          let data := dictSet data "publish_history" time_data
          let ks := (tl.map Prod.fst).filter fun k => !(k == "created" || k == "modified")
          pure (dictSet data "versions_count" (.num ks.length), st)
        | _ => throw .attributeError
      | none => pure (data, addWarning st "Failed to parse npm time output")
    else pure (data, st)
  let ((success, stdout, _), st) :=
    run_command env.npmVersions ["npm", "view", pkg, "versions", "--json"] 30 st
  let (data, st) ←
    if success && !(stdout == "") then
      match json_loads stdout with
      | some versions =>
        match versions with
        | .arr _ => pure (dictSet data "all_versions" versions, st)
        | _ => pure (dictSet data "all_versions" (.arr [versions]), st)
      | none => pure (data, addWarning st "Failed to parse npm versions output")
    else pure (data, st)
  pure (data, st)

/-- `gather_pypi_data`: one PyPI JSON API call. -/
def gather_pypi_data (env : EvalEnv) (pkg : String) (st : EvalState) :
    Except PyErr (JObj × EvalState) := do
  let data : JObj := []
  let pypi_url := s!"https://pypi.org/pypi/{pkg}/json"
  let (pypi_res, st) := fetch_url env.pypi pypi_url st
  match pypi_res with
  | some pypi_data =>
    if truthy pypi_data then
      match pypi_data with
      | .obj pl => do
        let info := (jlook pl "info").getD (.obj [])
        match info with
        | .obj il => do
          let data := dictSet data "latest_version" ((jlook il "version").getD (.str ""))
          let data := dictSet data "license" ((jlook il "license").getD (.str ""))
          let data := dictSet data "description" ((jlook il "summary").getD (.str ""))
          let data := dictSet data "homepage" ((jlook il "home_page").getD (.str ""))
          let pu := (jlook il "project_urls").getD (.obj [])
          let fallback := (jlook il "project_url").getD (.str "")
          let ru ←
            match pu with
            | .obj pul => pure ((jlook pul "Source").getD fallback)
            | _ => throw .attributeError
          let data := dictSet data "repository_url" ru
          let data := dictSet data "author" ((jlook il "author").getD (.str ""))
          let kw := (jlook il "keywords").getD (.str "")
          let kws ←
            if truthy kw then
              match kw with
              | .str s => pure (JValue.arr ((s.splitOn ",").map .str))
              | _ => throw .attributeError
            else pure (JValue.arr [])
          let data := dictSet data "keywords" kws
          let releases := (jlook pl "releases").getD (.obj [])
          let n ← pyLen releases
          let data := dictSet data "versions_count" (.num n)
          match releases with
          | .obj rl => do
            let histStep := fun (acc : JObj) (p : String × JValue) => do
              let v ←
                if truthy p.2 then do
                  let first ← pyIndex0 p.2
                  pyGetD first "upload_time" (.str "")
                else pure (JValue.str "")
              pure (dictSet acc p.1 v)
            let hist ← rl.foldlM histStep ([] : JObj)
            pure (dictSet data "publish_history" (.obj hist), st)
          | _ => throw .attributeError
        | _ => throw .attributeError
      | _ => throw .attributeError
    else pure (data, st)
  | none => pure (data, st)

/-- `gather_cargo_data`: two crates.io API calls. -/
def gather_cargo_data (env : EvalEnv) (pkg : String) (st : EvalState) :
    Except PyErr (JObj × EvalState) := do
  let data : JObj := []
  let crates_url := s!"https://crates.io/api/v1/crates/{pkg}"
  let (crate_res, st) := fetch_url env.cargoCrate crates_url st
  match crate_res with
  | some crate_data => do
    let hasCrate ←
      if truthy crate_data then pyContains "crate" crate_data else pure false
    if hasCrate then do
      let crate ← pySubscript crate_data "crate"
      match crate with
      | .obj cl => do
        let data := dictSet data "latest_version" ((jlook cl "max_version").getD (.str ""))
        let lic := (jlook cl "license").getD (.str "")
        let licStr ←
          match lic with
          | .str s => pure (String.intercalate ", " (s.splitOn " OR "))
          | _ => throw .attributeError
        let data := dictSet data "license" (.str licStr)
        let data := dictSet data "description" ((jlook cl "description").getD (.str ""))
        let data := dictSet data "homepage" ((jlook cl "homepage").getD (.str ""))
        let data := dictSet data "repository_url" ((jlook cl "repository").getD (.str ""))
        let data := dictSet data "downloads" ((jlook cl "downloads").getD (.num 0))
        let data := dictSet data "recent_downloads" ((jlook cl "recent_downloads").getD (.num 0))
        let versions_url := s!"https://crates.io/api/v1/crates/{pkg}/versions"
        let (versions_res, st) := fetch_url env.cargoVersions versions_url st
        match versions_res with
        | some versions_data => do
          let hasV ←
            if truthy versions_data then pyContains "versions" versions_data else pure false
          if hasV then do
            let vs ← pySubscript versions_data "versions"
            let n ← pyLen vs
            let data := dictSet data "versions_count" (.num n)
            let elems ← pyIter vs
            let nums ← elems.mapM fun v => pyGetD v "num" (.str "")
            pure (dictSet data "all_versions" (.arr nums), st)
          else pure (data, st)
        | none => pure (data, st)
      | _ => throw .attributeError
    else pure (data, st)
  | none => pure (data, st)

/-- `gather_go_data`: one `go list` call. -/
def gather_go_data (env : EvalEnv) (pkg : String) (st : EvalState) :
    Except PyErr (JObj × EvalState) := do
  let data : JObj := []
  let ((success, stdout, _), st) :=
    run_command env.goList ["go", "list", "-m", "-json", pkg] 30 st
  if success && !(stdout == "") then
    match json_loads stdout with
    | some go_data =>
      match go_data with
      | .obj gl => do
        let data := dictSet data "module_path" ((jlook gl "Path").getD (.str ""))
        let data := dictSet data "latest_version" ((jlook gl "Version").getD (.str ""))
        let data := dictSet data "time" ((jlook gl "Time").getD (.str ""))
        pure (data, st)
      | _ => throw .attributeError
    | none => pure (data, addWarning st "Failed to parse go list output")
  else pure (data, st)

/-! ## RepositoryLinker: `gather_github_data`

The three supplementary lookups (community health, contributor count, SPDX
license id) are factored into their own definitions so their warning
behaviour can be stated directly; `gather_github_data` composes them exactly
in the source's order. -/

/-- The community-health lookup (`gh api .../community/profile`): its `try`
block catches only `JSONDecodeError` (`pass`), so unparsable output is
dropped without a warning, while a non-`dict` parse raises. -/
def communityBlock (o : CmdOutcome) (path : String) (data : JObj)
    (st : EvalState) : Except PyErr (JObj × EvalState) :=
  let ((success, stdout, _), st) := run_command o ["gh", "api", path] 30 st
  if success && !(stdout == "") then
    match json_loads stdout with
    | some community_data =>
      match community_data with
      | .obj cl =>
        let hp := (jlook cl "health_percentage").getD (.num 0)
        let fl := (jlook cl "files").getD (.obj [])
        pure (dictSet data "community_health"
          (.obj [("health_percentage", hp), ("files", fl)]), st)
      | _ => throw .attributeError
    | none => pure (data, st)
  else pure (data, st)

/-- The contributor-count lookup (`gh api .../contributors --jq length`):
the key is set only when the stripped output is purely numeric. -/
def contributorsBlock (o : CmdOutcome) (path : String) (data : JObj)
    (st : EvalState) : JObj × EvalState :=
  let ((success, stdout, _), st) :=
    run_command o ["gh", "api", path, "--jq", "length"] 30 st
  if success && pyIsDigit (pyStrip stdout) then
    (dictSet data "contributors_count" (.num (digitsVal (pyStrip stdout).data)), st)
  else (data, st)

/-- The SPDX-license lookup (`gh api .../license --jq .license.spdx_id`):
the key is set only when the stripped output is nonempty. -/
def licenseBlock (o : CmdOutcome) (path : String) (data : JObj)
    (st : EvalState) : JObj × EvalState :=
  let ((success, stdout, _), st) :=
    run_command o ["gh", "api", path, "--jq", ".license.spdx_id"] 30 st
  if success && !(pyStrip stdout == "") then
    (dictSet data "license_info" (.obj [("spdx_id", .str (pyStrip stdout))]), st)
  else (data, st)

/-- `gather_github_data`: parse the repository URL, fetch core repository
fields CLI-first with a REST fallback, then run the three supplementary
lookups.  The argument is the raw `repository_url` value from registry data;
`re.search` on a non-string raises `TypeError`. -/
def gather_github_data (env : GithubEnv) (repo_url : JValue) (st : EvalState) :
    Except PyErr (JObj × EvalState) := do
  let data : JObj := []
  let url ←
    match repo_url with
    | .str u => pure u
    | _ => throw .typeError
  match extract_github_repo url with
  | none => pure (data, addWarning st s!"Could not parse GitHub URL: {url}")
  | some (owner, repo) => do
    let data := dictSet data "repository_url" (.str s!"https://github.com/{owner}/{repo}")
    let ((success, stdout, _), st) :=
      run_command env.ghRepo ["gh", "api", s!"repos/{owner}/{repo}"] 30 st
    let (data, st) ←
      if success && !(stdout == "") then
        match json_loads stdout with
        | some repo_data =>
          match repo_data with
          | .obj rl => do
            let data := dictSet data "pushed_at" ((jlook rl "pushed_at").getD (.str ""))
            let data := dictSet data "open_issues_count" ((jlook rl "open_issues_count").getD (.num 0))
            let data := dictSet data "stargazers_count" ((jlook rl "stargazers_count").getD (.num 0))
            let data := dictSet data "forks_count" ((jlook rl "forks_count").getD (.num 0))
            let data := dictSet data "watchers_count" ((jlook rl "watchers_count").getD (.num 0))
            let data := dictSet data "default_branch" ((jlook rl "default_branch").getD (.str ""))
            pure (data, st)
          | _ => throw .attributeError
        | none => pure (data, addWarning st "Failed to parse gh api output")
      else do
        let api_url := s!"https://api.github.com/repos/{owner}/{repo}"
        let (repo_res, st) := fetch_url env.apiFallback api_url st
        match repo_res with
        | some repo_data =>
          if truthy repo_data then
            match repo_data with
            | .obj rl => do
              let data := dictSet data "pushed_at" ((jlook rl "pushed_at").getD (.str ""))
              let data := dictSet data "open_issues_count" ((jlook rl "open_issues_count").getD (.num 0))
              let data := dictSet data "stargazers_count" ((jlook rl "stargazers_count").getD (.num 0))
              let data := dictSet data "forks_count" ((jlook rl "forks_count").getD (.num 0))
              let data := dictSet data "watchers_count" ((jlook rl "watchers_count").getD (.num 0))
              let data := dictSet data "default_branch" ((jlook rl "default_branch").getD (.str ""))
              pure (data, st)
            | _ => throw .attributeError
          else pure (data, st)
        | none => pure (data, st)
    let (data, st) ← communityBlock env.community s!"repos/{owner}/{repo}/community/profile" data st
    let (data, st) := contributorsBlock env.contributors s!"repos/{owner}/{repo}/contributors" data st
    let (data, st) := licenseBlock env.licenseCmd s!"repos/{owner}/{repo}/license" data st
    pure (data, st)

/-! ## Stubbed collectors and the evaluation driver -/

/-- `gather_security_data`: a stub; for npm it records a fixed warning. -/
def gather_security_data (ecosystem : String) (st : EvalState) : JObj × EvalState :=
  if ecosystem == "npm" then
    ([], addWarning st "npm audit requires package.json context - skipping")
  else ([], st)

/-- `gather_dependency_footprint`: a stub returning fixed placeholder
counts; for npm it records a fixed warning. -/
def gather_dependency_footprint (ecosystem : String) (st : EvalState) : JObj × EvalState :=
  let data : JObj :=
    [("direct_dependencies", .num 0), ("total_dependencies", .num 0), ("tree_depth", .num 1)]
  if ecosystem == "npm" then
    (data, addWarning st "npm ls requires package installation - skipping")
  else (data, st)

/-- The JSON document `evaluate()` assembles. -/
structure EvalResult where
  package : String
  ecosystem : String
  timestamp : String
  registry_data : JObj
  github_data : JObj
  security_data : JObj
  dependency_footprint : JObj
  errors : List String
  warnings : List String

/-- `DependencyEvaluator.__init__` + `evaluate()`: the constructor lowercases
the ecosystem tag; an unsupported tag produces a single error and an early
return with every data section still empty; otherwise the matching adapter
runs, GitHub data is gathered when the registry's `repository_url` is truthy
and mentions `github.com`, and the stubbed collectors follow. -/
def evaluate (env : EvalEnv) (pkg ecosystemArg : String) : Except PyErr EvalResult := do
  let ecosystem := pyLower ecosystemArg
  let st : EvalState := ⟨[], []⟩
  if ecosystem == "npm" || ecosystem == "pypi" || ecosystem == "cargo" || ecosystem == "go" then do
    let (registry_data, st) ←
      if ecosystem == "npm" then gather_npm_data env pkg st
      else if ecosystem == "pypi" then gather_pypi_data env pkg st
      else if ecosystem == "cargo" then gather_cargo_data env pkg st
      else gather_go_data env pkg st
    let repo_url := (jlook registry_data "repository_url").getD (.str "")
    let (github_data, st) ←
      if truthy repo_url then do
        let mentions ← pyContains "github.com" repo_url
        if mentions then gather_github_data env.gh repo_url st
        else pure (([] : JObj), st)
      else pure (([] : JObj), st)
    let (security_data, st) := gather_security_data ecosystem st
    let (dependency_footprint, st) := gather_dependency_footprint ecosystem st
    pure ⟨pkg, ecosystem, env.timestamp, registry_data, github_data,
      security_data, dependency_footprint, st.errors, st.warnings⟩
  else
    let st := addError st s!"Unsupported ecosystem: {ecosystem}"
    pure ⟨pkg, ecosystem, env.timestamp, [], [], [], [], st.errors, st.warnings⟩

/-- The argparse `choices` list for the `ecosystem` positional argument. -/
def ecosystemChoices : List String := ["npm", "pypi", "cargo", "go"]

/-- What one invocation of the script does. -/
inductive MainResult where
  /-- argparse rejected the arguments: usage text on stderr, exit status 2,
  nothing on stdout. -/
  | usageError : MainResult
  /-- an uncaught exception: traceback on stderr, exit status 1, no JSON on
  stdout. -/
  | crashed : PyErr → MainResult
  /-- normal completion: the JSON document printed to stdout and the exit
  status (`sys.exit(1)` when errors were recorded, otherwise 0). -/
  | finished : EvalResult → Nat → MainResult

/-- `main()`: argparse validates the ecosystem against `choices` by exact
string comparison, then the evaluation runs, the result is printed, and the
exit status reflects whether `errors` is nonempty. -/
def mainEvaluator (env : EvalEnv) (pkg ecosystemArg : String) : MainResult :=
  if ecosystemChoices.contains ecosystemArg then
    match evaluate env pkg ecosystemArg with
    | .ok result => .finished result (if result.errors.isEmpty then 0 else 1)
    | .error e => .crashed e
  else .usageError

/-! ## Pipeline B: the workflow analyzer

`analyze_sessions` reads each session file line by line; a line is parsed
independently as one JSON record (malformed lines are skipped via the caught
`JSONDecodeError`), while an exception the per-line handler does not catch —
an `AttributeError` from `.get` on a non-`dict` record or message — aborts
the rest of that file inside the outer `except Exception: continue`.
Prompts collected before such an abort were already appended to the global
prompt list; the file contributes no `sessions_data` entry.  A file is given
here as its project name, session id (derived in the source from the path)
and its list of lines, or `none` when opening the file raises. -/

/-- What one parsed log record contributes. -/
inductive RecordOutcome where
  | counted : String → RecordOutcome
  | skipped : RecordOutcome
  | fileError : RecordOutcome

/-- Classification of one parsed record (the body of the per-line logic):
countable iff type is `"user"`, nested role is `"user"`, not flagged
`isMeta`, content is a string not starting with a command marker and longer
than 20 characters.  A non-`dict` record or a present non-`dict` `message`
raises `AttributeError` (not caught per line). -/
def processRecord (data : JValue) : RecordOutcome :=
  match data with
  | .obj dl =>
    if (match jlook dl "type" with | some (.str t) => t == "user" | _ => false) then
      match (jlook dl "message").getD (.obj []) with
      | .obj ml =>
        if (match jlook ml "role" with | some (.str r) => r == "user" | _ => false)
            && !(truthy ((jlook dl "isMeta").getD (.bool false))) then
          match (jlook ml "content").getD (.str "") with
          | .str content =>
            if !(pyStartsWith content "<command") && !(pyStartsWith content "<local-command") then
              if 20 < content.length then .counted content else .skipped
            else .skipped
          | _ => .skipped
        else .skipped
      | _ => .fileError
    else .skipped
  | _ => .fileError

/-- Process a file's lines in order: the qualifying prompt texts, and whether
the file completed without an uncaught exception. -/
def processLines : List String → List String × Bool
  | [] => ([], true)
  | line :: rest =>
    match json_loads (pyStrip line) with
    | none => processLines rest
    | some data =>
      match processRecord data with
      | .counted s =>
        let (ps, ok) := processLines rest
        (s :: ps, ok)
      | .skipped => processLines rest
      | .fileError => ([], false)

/-- One input session file: project name (parent directory), session id
(file stem), and the lines read, or `none` when opening the file raised. -/
structure SessionFile where
  project : String
  session : String
  content : Option (List String)

/-- Prompts a file contributes, and whether it completed normally. -/
def filePrompts (f : SessionFile) : List String × Bool :=
  match f.content with
  | none => ([], false)
  | some lines => processLines lines

/-- An entry of the global `all_prompts` list. -/
structure PromptRec where
  text : String
  lower : String
  project : String
  session : String

/-- The global `all_prompts` list (prompts from aborted files included, up to
the abort point). -/
def allPrompts (files : List SessionFile) : List PromptRec :=
  (files.map fun f =>
    ((filePrompts f).1).map fun s => PromptRec.mk s (pyLower s) f.project f.session).flatten

/-- An entry of `sessions_data`. -/
structure SessionData where
  project : String
  session : String
  prompts : List String
  count : Nat

/-- `sessions_data`: one entry per file that completed normally and yielded
at least one qualifying prompt. -/
def sessionsData (files : List SessionFile) : List SessionData :=
  files.filterMap fun f =>
    let (prompts, ok) := filePrompts f
    if ok && !prompts.isEmpty then some (SessionData.mk f.project f.session prompts prompts.length)
    else none

/-! ## PatternDetector: the five keyword classifiers -/

/-- The lowercased concatenation `' '.join([p.lower() for p in prompts])`. -/
def combinedText (s : SessionData) : String :=
  String.intercalate " " (s.prompts.map pyLower)

/-- Pattern 1: git commit + push. -/
def matchesGitCommitPush (s : SessionData) : Bool :=
  let combined := combinedText s
  let has_commit := strIn "commit" combined || strIn "committed" combined
  let has_push := strIn "push" combined
  (has_commit && has_push) || decide (2 ≤ strCount combined "git")

/-- Pattern 2: version bump + publish. -/
def matchesVersionPublish (s : SessionData) : Bool :=
  let combined := combinedText s
  let has_version := strIn "version" combined || strIn "bump" combined
  let has_publish := strIn "publish" combined || strIn "release" combined || strIn "update" combined
  let has_plugin := strIn "plugin" combined || strIn "marketplace" combined
  (has_version && has_publish) || (has_plugin && (has_version || has_publish))

/-- Pattern 3: documentation/README updates. -/
def matchesDocumentationUpdates (s : SessionData) : Bool :=
  let combined := combinedText s
  strIn "readme" combined || strIn "documentation" combined ||
    (strIn "doc" combined && (strIn "update" combined || strIn "write" combined))

/-- Pattern 4: test/fix cycles. -/
def matchesTestFixCycles (s : SessionData) : Bool :=
  let combined := combinedText s
  let has_test := strIn "test" combined || strIn "testing" combined
  let has_fix := strIn "fix" combined || strIn "error" combined || strIn "bug" combined
  has_test && has_fix

/-- Pattern 5: implementation workflows. -/
def matchesImplementationWorkflows (s : SessionData) : Bool :=
  let combined := combinedText s
  let has_impl := strIn "implement" combined || strIn "implementation" combined || strIn "build" combined
  has_impl || (decide (5 ≤ s.count) && (strIn "add" combined || strIn "create" combined))

/-- The five pattern categories. -/
inductive PatternId where
  | git_commit_push : PatternId
  | version_publish : PatternId
  | documentation_updates : PatternId
  | test_fix_cycles : PatternId
  | implementation_workflows : PatternId

/-- The classifier of each pattern. -/
def patternPred : PatternId → SessionData → Bool
  | .git_commit_push => matchesGitCommitPush
  | .version_publish => matchesVersionPublish
  | .documentation_updates => matchesDocumentationUpdates
  | .test_fix_cycles => matchesTestFixCycles
  | .implementation_workflows => matchesImplementationWorkflows

/-- The example dict appended for a matching session (first 5 prompts). -/
structure PatternExample where
  session : String
  project : String
  prompts : List String

/-- Build the example entry for one matching session. -/
def toExample (s : SessionData) : PatternExample :=
  PatternExample.mk s.session s.project (s.prompts.take 5)

/-- The per-pattern list the source accumulates: one example entry per
matching session, in input order. -/
def patternMatchesList (sessions : List SessionData) (p : PatternId) : List PatternExample :=
  (sessions.filter (patternPred p)).map toExample

/-- One `patterns_found` entry: the uncapped match count and the examples
truncated to the first five. -/
structure PatternResult where
  count : Nat
  examples : List PatternExample

/-- `patterns_found[p] = {'count': len(lst), 'examples': lst[:5]}`. -/
def patternEntry (sessions : List SessionData) (p : PatternId) : PatternResult :=
  let lst := patternMatchesList sessions p
  PatternResult.mk lst.length (lst.take 5)

/-- Python `project_activity[project] = project_activity.get(project, 0) + 1`. -/
def bumpProject : List (String × Nat) → String → List (String × Nat)
  | [], k => [(k, 1)]
  | (k', n) :: t, k => if k' == k then (k', n + 1) :: t else (k', n) :: bumpProject t k

/-- The project → session-count mapping, in first-seen order. -/
def projectActivity (sessions : List SessionData) : List (String × Nat) :=
  sessions.foldl (fun acc s => bumpProject acc s.project) []

/-- The `summary` sub-dictionary. -/
structure Summary where
  total_sessions_analyzed : Nat
  sessions_with_user_prompts : Nat
  total_user_prompts : Nat
  date_range : String

/-- The `patterns_found` dictionary. -/
structure Patterns where
  git_commit_push : PatternResult
  version_publish : PatternResult
  documentation_updates : PatternResult
  test_fix_cycles : PatternResult
  implementation_workflows : PatternResult

/-- Select one pattern's entry. -/
def Patterns.get (pt : Patterns) : PatternId → PatternResult
  | .git_commit_push => pt.git_commit_push
  | .version_publish => pt.version_publish
  | .documentation_updates => pt.documentation_updates
  | .test_fix_cycles => pt.test_fix_cycles
  | .implementation_workflows => pt.implementation_workflows

/-- The analysis dictionary returned by `analyze_sessions`. -/
structure Analysis where
  summary : Summary
  project_activity : List (String × Nat)
  patterns : Patterns

/-- `analyze_sessions`: parse every file, detect the five patterns, and
aggregate per-project activity. -/
def analyze_sessions (files : List SessionFile) : Analysis :=
  let sessions := sessionsData files
  Analysis.mk
    (Summary.mk files.length sessions.length (allPrompts files).length "Last 30 days")
    (projectActivity sessions)
    (Patterns.mk
      (patternEntry sessions .git_commit_push)
      (patternEntry sessions .version_publish)
      (patternEntry sessions .documentation_updates)
      (patternEntry sessions .test_fix_cycles)
      (patternEntry sessions .implementation_workflows))

/-! ## ReportRenderer

`generate_report` is a pure formatting function; every partial Python
operation in it is guarded in the source (`examples[0]` and
`sorted_projects[0]` by emptiness tests, the percentage division by a
positivity test), so the translation is total.  Python formats
`count * 12.5 / 60` as a binary double with `:.1f`; the model computes the
exact rational and rounds half-to-even, which agrees at every value this
development evaluates. -/

/-- Round half to even, as float formatting does. -/
def rhe (x : ℚ) : ℤ :=
  let f := ⌊x⌋
  let r := x - (f : ℚ)
  if r < 1 / 2 then f
  else if 1 / 2 < r then f + 1
  else if f % 2 = 0 then f else f + 1

/-- Python `f"{x:.1f}"` on an exact rational. -/
def fmtQ1 (x : ℚ) : String :=
  let n := rhe (x * 10)
  let m := n.natAbs
  let sign := if n < 0 then "-" else ""
  let ip := m / 10
  let fp := m % 10
  s!"{sign}{ip}.{fp}"

/-- Python `f"{x:.0f}"` on an exact rational. -/
def fmtQ0 (x : ℚ) : String := toString (rhe x)

/-- The numbered example lines: `f"{i}. \"{preview}...\""` with the prompt
truncated to 120 characters and newlines replaced by spaces. -/
def renderPromptLines : Nat → List String → String
  | _, [] => ""
  | i, p :: rest =>
    let preview := pyReplace (String.mk (p.data.take 120)) "\n" " "
    s!"{i}. \"{preview}...\"\n" ++ renderPromptLines (i + 1) rest

/-- Stable insertion keeping strictly larger counts first (Python
`sorted(..., key=lambda x: x[1], reverse=True)` is stable). -/
def insertDesc (x : String × Nat) : List (String × Nat) → List (String × Nat)
  | [] => [x]
  | y :: t => if decide (x.2 ≤ y.2) then y :: insertDesc x t else x :: y :: t

/-- Stable descending sort by session count. -/
def sortByCountDesc (l : List (String × Nat)) : List (String × Nat) :=
  l.foldl (fun acc x => insertDesc x acc) []

/-- One line of the top-5 project ranking. -/
def projectLine (total : Nat) (p : String × Nat) : String :=
  let clean_name := pyReplace (pyReplace p.1 "-Users-ant-code-" "") "-Users-ant-" ""
  let sc := p.2
  let percentage : ℚ := if 0 < total then (sc : ℚ) / (total : ℚ) * 100 else 0
  let pct := fmtQ0 percentage
  s!"- **{clean_name}**: {sc} sessions ({pct}% of activity)\n"

/-- `generate_report`: the Markdown report, translated line by line from the
source's f-strings. -/
def generate_report (analysis_data : Analysis) : String :=
  let summary := analysis_data.summary
  let patterns := analysis_data.patterns
  let projects := analysis_data.project_activity
  let dateRange := summary.date_range
  let swup := summary.sessions_with_user_prompts
  let tsa := summary.total_sessions_analyzed
  let tup := summary.total_user_prompts
  let vpc := patterns.version_publish.count
  let gitc := patterns.git_commit_push.count
  let docc := patterns.documentation_updates.count
  let implc := patterns.implementation_workflows.count
  let testc := patterns.test_fix_cycles.count
  let vpHours := fmtQ1 ((vpc : ℚ) * 12.5 / 60)
  let vpSave := fmtQ1 ((vpc : ℚ) * 10 / 60)
  let gitHours := fmtQ1 ((gitc : ℚ) * 6.5 / 60)
  let gitSave := fmtQ1 ((gitc : ℚ) * 4 / 60)
  let docHours := fmtQ1 ((docc : ℚ) * 10 / 60)
  let docSave := fmtQ1 ((docc : ℚ) * 6 / 60)
  let implHours := fmtQ1 ((implc : ℚ) * 32.5 / 60)
  let implSave := fmtQ1 ((implc : ℚ) * 7 / 60)
  let testSave := fmtQ1 ((testc : ℚ) * 3 / 60)
  let top3 := fmtQ1 (((vpc : ℚ) * 10 + (gitc : ℚ) * 4 + (docc : ℚ) * 6) / 60)
  let all5 := fmtQ1 (((vpc : ℚ) * 10 + (gitc : ℚ) * 4 + (docc : ℚ) * 6 + (implc : ℚ) * 7 + (testc : ℚ) * 3) / 60)
  let sorted_projects := sortByCountDesc projects
  let total_sessions := (projects.map Prod.snd).sum
  let projLines := String.join ((sorted_projects.take 5).map (projectLine total_sessions))
  let mostActive := sorted_projects.headD ("unknown", 0)
  let mostActiveClean := pyReplace mostActive.1 "-Users-ant-code-" ""
  let exBlockA :=
    match patterns.version_publish.examples with
    | [] => ""
    | ex :: _ =>
      let exProj := pyReplace ex.project "-Users-ant-code-" ""
      s!"\n*Example from {exProj}:*\n" ++ renderPromptLines 1 (ex.prompts.take 3)
  let exBlockB :=
    match patterns.implementation_workflows.examples with
    | [] => ""
    | ex :: _ =>
      let exProj := pyReplace ex.project "-Users-ant-code-" ""
      s!"\n*Example from {exProj}:*\n" ++ renderPromptLines 1 (ex.prompts.take 2)
  let partA := String.join [
    "# Claude Code Workflow Analysis Report\n",
    "\n",
    "## Analysis Summary\n",
    "\n",
    s!"**Period Analyzed:** {dateRange}\n",
    s!"**Sessions Reviewed:** {swup} sessions with user activity (from {tsa} total)\n",
    s!"**User Prompts Examined:** {tup} prompts\n",
    "**Patterns Detected:** 5 high-value automation opportunities\n",
    "\n",
    "---\n",
    "\n",
    "## High-Priority Patterns\n",
    "\n",
    "### 1. Plugin/Marketplace Publish Workflow\n",
    s!"**Frequency:** {vpc} occurrences\n",
    "**Estimated Time per Occurrence:** 10-15 minutes\n",
    s!"**Total Time Spent:** ~{vpHours} hours\n",
    "**Potential Savings:** 8-10 minutes per run (automated sequence)\n",
    "\n",
    "**What you do:**\n"]
  let partB := String.join [
    "\n",
    "**Suggested Command:** `/publish-plugin [version]`\n",
    "\n",
    "**What it automates:**\n",
    "1. Update version in plugin.json and marketplace.json\n",
    "2. Update README with version notes\n",
    "3. Run any validation/tests\n",
    "4. Git add, commit with conventional message\n",
    "5. Git push\n",
    "6. Optionally create GitHub release\n",
    "\n",
    s!"**Time savings:** ~10 min/occurrence = **{vpSave} hours saved over 30 days**\n",
    "\n",
    "---\n",
    "\n",
    "### 2. Git Commit + Push Workflow\n",
    s!"**Frequency:** {gitc} occurrences\n",
    "**Estimated Time per Occurrence:** 5-8 minutes\n",
    s!"**Total Time Spent:** ~{gitHours} hours\n",
    "**Potential Savings:** 3-5 minutes per run\n",
    "\n",
    "**What you do:**\n",
    "- Review changes with git status/diff\n",
    "- Stage files selectively\n",
    "- Write commit message\n",
    "- Push to remote\n",
    "- Often involves back-and-forth about commit message format\n",
    "\n",
    "**Suggested Command:** `/ship-git [message]`\n",
    "\n",
    "**What it automates:**\n",
    "1. Run git status and git diff for review\n",
    "2. Stage all changes (or prompt for selection)\n",
    "3. Create commit with your preferred format\n",
    "4. Push to current branch\n",
    "5. Show summary of what was shipped\n",
    "\n",
    s!"**Time savings:** ~4 min/occurrence = **{gitSave} hours saved over 30 days**\n",
    "\n",
    "---\n",
    "\n",
    "### 3. Documentation Updates\n",
    s!"**Frequency:** {docc} occurrences\n",
    "**Estimated Time per Occurrence:** 8-12 minutes\n",
    s!"**Total Time Spent:** ~{docHours} hours\n",
    "**Potential Savings:** 5-8 minutes per run\n",
    "\n",
    "**What you do:**\n",
    "- Update README files after feature changes\n",
    "- Keep plugin docs in sync with marketplace.json\n",
    "- Review and refine documentation formatting\n",
    "- Ensure consistency across multiple README files\n",
    "\n",
    "**Suggested Command:** `/sync-docs`\n",
    "\n",
    "**What it automates:**\n",
    "1. Check for version mismatches between files\n",
    "2. Update README files with latest plugin metadata\n",
    "3. Validate documentation structure\n",
    "4. Check for broken links or references\n",
    "5. Ensure consistent formatting\n",
    "6. Optionally commit documentation changes\n",
    "\n",
    s!"**Time savings:** ~6 min/occurrence = **{docSave} hours saved over 30 days**\n",
    "\n",
    "---\n",
    "\n",
    "### 4. Implementation Workflows (Plan → Build → Test)\n",
    s!"**Frequency:** {implc} occurrences\n",
    "**Estimated Time per Occurrence:** 20-45 minutes\n",
    s!"**Total Time Spent:** ~{implHours} hours\n",
    "**Potential Savings:** 5-10 minutes per run (setup/teardown phases)\n",
    "\n",
    "**What you do:**\n"]
  let partC := String.join [
    "\n",
    "**Suggested Command:** `/do-phase [phase-name]`\n",
    "\n",
    "**What it automates:**\n",
    "- Common development phase transitions\n",
    "- Reads @PLAN.md or similar planning documents\n",
    "- Sets up context for each phase\n",
    "- Runs phase-specific validations\n",
    "- Updates progress tracking\n",
    "\n",
    "**Example usage:**\n",
    "- `/do-phase planning` - Review requirements, create/update PLAN.md\n",
    "- `/do-phase implementation` - Load plan, track progress, implement features\n",
    "- `/do-phase review` - Run tests, check quality, prepare for commit\n",
    "\n",
    s!"**Time savings:** ~7 min/occurrence = **{implSave} hours saved over 30 days**\n",
    "\n",
    "---\n",
    "\n",
    "## Medium-Priority Patterns\n",
    "\n",
    "### 5. Test + Fix Cycles\n",
    s!"**Frequency:** {testc} occurrences\n",
    "**Suggested Command:** `/test-and-fix`\n",
    "\n",
    "**What it automates:**\n",
    "1. Run test suite\n",
    "2. Analyze failures\n",
    "3. Fix identified issues\n",
    "4. Re-run tests\n",
    "5. Report results\n",
    "\n",
    s!"**Time savings:** ~3 min/occurrence = **{testSave} hours saved over 30 days**\n",
    "\n",
    "---\n",
    "\n",
    "## Project-Specific Insights\n",
    "\n",
    "**Most Active Projects:**\n"]
  let partD := String.join [
    "\n",
    "**Key Observation:** Your workflow patterns suggest you\x27d benefit from **project-aware commands** that adapt to context.\n",
    "\n",
    "**Pattern:** You frequently work on:\n",
    "1. Plugin/skill development\n",
    s!"2. Application development ({mostActiveClean} is your most active project)\n",
    "3. Testing/setup tooling\n",
    "\n",
    "---\n",
    "\n",
    "## Recommendations\n",
    "\n",
    "### Commands to Create First (Ranked by Impact)\n",
    "\n",
    "1. **`/publish-plugin`** - Highest time savings, very repetitive workflow\n",
    "   - Priority: **HIGHEST**\n",
    "   - Complexity: Medium\n",
    "   - ROI: Excellent\n",
    "\n",
    "2. **`/ship-git`** - Second highest savings, used across all projects\n",
    "   - Priority: **HIGH**\n",
    "   - Complexity: Low\n",
    "   - ROI: Excellent\n",
    "\n",
    "3. **`/sync-docs`** - High savings, prevents consistency errors\n",
    "   - Priority: **HIGH**\n",
    "   - Complexity: Medium\n",
    "   - ROI: Very Good\n",
    "\n",
    "4. **`/do-phase`** - Good savings, improves workflow structure\n",
    "   - Priority: **MEDIUM-HIGH**\n",
    "   - Complexity: Medium-High\n",
    "   - ROI: Good\n",
    "\n",
    "5. **`/test-and-fix`** - Moderate savings, good for iteration speed\n",
    "   - Priority: **MEDIUM**\n",
    "   - Complexity: Medium\n",
    "   - ROI: Good\n",
    "\n",
    "### Estimated Total Time Savings\n",
    "\n",
    s!"**If you implement the top 3 commands:** ~{top3} hours saved per month\n",
    s!"**If you implement all 5 commands:** ~{all5} hours saved per month\n",
    "\n",
    "### Next Steps\n",
    "\n",
    "1. **Start with `/ship-git`** - Lowest complexity, immediate benefit, used everywhere\n",
    "2. **Add `/publish-plugin`** - Highest savings for your current focus area\n",
    "3. **Create `/sync-docs`** - Prevents documentation drift in marketplace work\n",
    "4. Consider project-specific variants that detect current project context\n",
    "\n",
    "### User Preference Observations\n",
    "\n",
    "Based on your workflow patterns:\n",
    "- ✓ You prefer structured, multi-step workflows\n",
    "- ✓ You work with @PLAN.md and reference files frequently\n",
    "- ✓ You iterate on naming and documentation carefully\n",
    "- ✓ You value consistency across plugin/marketplace files\n",
    "- ✓ Git commit messages appear to use conventional format\n",
    "\n",
    "**Commands should:**\n",
    "- Support reading from @-referenced files (like @PLAN.md)\n",
    "- Provide clear progress tracking\n",
    "- Allow refinement/iteration before final execution\n",
    "- Maintain file consistency as a primary goal\n",
    "- Use your preferred commit message conventions\n",
    "\n",
    "---\n",
    "\n",
    "## Appendix: Analysis Metadata\n",
    "\n",
    s!"**Sessions Analyzed:** {tsa}\n",
    s!"**Sessions with User Activity:** {swup}\n",
    s!"**User Prompts Parsed:** {tup}\n",
    "**Pattern Detection Method:** Keyword analysis + session structure analysis\n",
    "**Privacy:** All analysis performed locally, no data sent externally\n"]
  partA ++ exBlockA ++ partB ++ exBlockB ++ partC ++ projLines ++ partD

/-- `main()` of the analyzer: read file paths from stdin, analyze, render,
print.  The printed text is the report plus the trailing newline `print`
appends. -/
def mainAnalyzer (files : List SessionFile) : String :=
  generate_report (analyze_sessions files) ++ "\n"

/-! ## Concrete environments used by the claim theorems -/

/-- An environment in which every external call fails benignly (nonzero exit
status, HTTP 500). -/
def envStub : EvalEnv :=
  EvalEnv.mk (.completed 1 "" "") (.completed 1 "" "") (.completed 1 "" "")
    (.httpError 500) (.httpError 500) (.httpError 500) (.completed 1 "" "")
    (GithubEnv.mk (.completed 1 "" "") (.httpError 500) (.completed 1 "" "")
      (.completed 1 "" "") (.completed 1 "" "")) "T"

/-- `envStub` with `npm view` succeeding but printing a JSON array. -/
def envNpmArray : EvalEnv := { envStub with npmView := .completed 0 "[]" "" }

/-- A well-formed `gh api repos/...` JSON body. -/
def ghRepoJson : String :=
  String.join ["\x7b\"pushed_at\":\"2024-01-01T00:00:00Z\",\"open_issues_count\":1,",
    "\"stargazers_count\":2,\"forks_count\":3,\"watchers_count\":4,\"default_branch\":\"main\"\x7d"]

/-- A GitHub environment whose core lookup succeeds, whose community-health
lookup times out, and whose remaining supplementary lookups exit nonzero. -/
def ghCommunityTimeout : GithubEnv :=
  GithubEnv.mk (.completed 0 ghRepoJson "") (.httpError 500) .timedOut
    (.completed 1 "" "") (.completed 1 "" "")

/-- One session-log line whose record qualifies as a prompt and matches the
git-commit-push pattern. -/
def gitLine : String :=
  String.join ["\x7b\"type\":\"user\",\"message\":\x7b\"role\":\"user\",",
    "\"content\":\"please git commit and git push this work\"\x7d\x7d"]

/-- Ten session files, each a single `gitLine` record. -/
def tenGitSessions : List SessionFile :=
  (List.range 10).map fun i => SessionFile.mk "proj" s!"s{i}" (some [gitLine])

/-! ## Record accessors used to state the prompt-classification claim -/

/-- The record's top-level `type` value (absent when the record is not an
object). -/
def recTopType : JValue → Option JValue
  | .obj dl => jlook dl "type"
  | _ => none

/-- The record's `message` value with the source's `{}` default. -/
def recMessage : JValue → JValue
  | .obj dl => (jlook dl "message").getD (.obj [])
  | _ => .obj []

/-- The nested message `role` value (absent when the message is not an
object). -/
def recRole (data : JValue) : Option JValue :=
  match recMessage data with
  | .obj ml => jlook ml "role"
  | _ => none

/-- The record's `isMeta` value with the source's `False` default. -/
def recIsMeta : JValue → JValue
  | .obj dl => (jlook dl "isMeta").getD (.bool false)
  | _ => .bool false

/-- The nested message `content` value with the source's `''` default
(absent when the message is not an object). -/
def recContent (data : JValue) : Option JValue :=
  match recMessage data with
  | .obj ml => some ((jlook ml "content").getD (.str ""))
  | _ => none

/-! ## General list lemmas -/

theorem takeWhile_append_all {α : Type} {p : α → Bool} {l₁ : List α} (l₂ : List α)
    (h : ∀ a ∈ l₁, p a = true) :
    (l₁ ++ l₂).takeWhile p = l₁ ++ l₂.takeWhile p := by
  induction l₁ with
  | nil => simp
  | cons a t ih =>
    simp [List.cons_append, List.takeWhile_cons, h a (by simp),
      ih fun b hb => h b (by simp [hb])]

theorem dropWhile_append_all {α : Type} {p : α → Bool} {l₁ : List α} (l₂ : List α)
    (h : ∀ a ∈ l₁, p a = true) :
    (l₁ ++ l₂).dropWhile p = l₂.dropWhile p := by
  induction l₁ with
  | nil => simp
  | cons a t ih =>
    simp [List.cons_append, List.dropWhile_cons, h a (by simp),
      ih fun b hb => h b (by simp [hb])]

theorem takeWhile_all {α : Type} {p : α → Bool} {l : List α}
    (h : ∀ a ∈ l, p a = true) : l.takeWhile p = l := by
  induction l with
  | nil => simp
  | cons a t ih =>
    simp [List.takeWhile_cons, h a (by simp), ih fun b hb => h b (by simp [hb])]

theorem isPrefixOf_append_self {α : Type} [BEq α] [LawfulBEq α] (l r : List α) :
    l.isPrefixOf (l ++ r) = true := by
  induction l with
  | nil => simp [List.isPrefixOf]
  | cons a t ih => simp [List.isPrefixOf, ih]

theorem isPrefixOf_extend {α : Type} [BEq α] [LawfulBEq α] {l m : List α} (r : List α)
    (h : l.isPrefixOf m = true) : l.isPrefixOf (m ++ r) = true := by
  induction l generalizing m with
  | nil => simp [List.isPrefixOf]
  | cons a t ih =>
    cases m with
    | nil => simp [List.isPrefixOf] at h
    | cons b m' =>
      simp only [List.isPrefixOf, Bool.and_eq_true] at h
      simp [List.isPrefixOf, h.1, ih h.2]

/-! ## Characterization of `extract_github_repo` -/

theorem matchGroups_props {rest o r : List Char} (h : matchGroups rest = some (o, r)) :
    o ≠ [] ∧ (∀ c ∈ o, (c == '/') = false) ∧ r ≠ [] ∧
      (∀ c ∈ r, (c == '/') = false) ∧ (∀ c ∈ r, (c == '.') = false) := by
  unfold matchGroups at h
  split at h
  case h_2 => exact absurd h (by simp)
  case h_1 c2 rest2 heq =>
    dsimp only at h
    split at h
    case isFalse => exact absurd h (by simp)
    case isTrue hcond =>
      split at h
      case isTrue => exact absurd h (by simp)
      case isFalse hrep =>
        injection h with h'
        injection h' with h1 h2
        subst h1
        subst h2
        simp only [Bool.and_eq_true] at hcond
        refine ⟨?_, ?_, ?_, ?_, ?_⟩
        · intro he
          rw [he] at hcond
          simp at hcond
        · intro c hc
          have := List.mem_takeWhile_imp hc
          simpa using this
        · intro he
          rw [he] at hrep
          simp at hrep
        · intro c hc
          have := List.mem_takeWhile_imp hc
          simp only [Bool.not_eq_true', Bool.or_eq_false_iff] at this
          exact this.1
        · intro c hc
          have := List.mem_takeWhile_imp hc
          simp only [Bool.not_eq_true', Bool.or_eq_false_iff] at this
          exact this.2

theorem matchP1At_props {s : List Char} {o r : List Char}
    (h : matchP1At s = some (o, r)) :
    o ≠ [] ∧ (∀ c ∈ o, (c == '/') = false) ∧ r ≠ [] ∧
      (∀ c ∈ r, (c == '/') = false) ∧ (∀ c ∈ r, (c == '.') = false) := by
  unfold matchP1At at h
  split at h
  case isFalse => exact absurd h (by simp)
  case isTrue =>
    split at h
    case h_2 => exact absurd h (by simp)
    case h_1 =>
      split at h
      case isFalse => exact absurd h (by simp)
      case isTrue => exact matchGroups_props h

theorem matchP2At_props {s : List Char} {o r : List Char}
    (h : matchP2At s = some (o, r)) :
    o ≠ [] ∧ (∀ c ∈ o, (c == '/') = false) ∧ r ≠ [] ∧
      (∀ c ∈ r, (c == '/') = false) ∧ (∀ c ∈ r, (c == '.') = false) := by
  unfold matchP2At at h
  split at h
  case isFalse => exact absurd h (by simp)
  case isTrue =>
    split at h
    case h_2 => exact absurd h (by simp)
    case h_1 =>
      split at h
      case isFalse => exact absurd h (by simp)
      case isTrue => exact matchGroups_props h

theorem searchP1_props {s o r : List Char} (h : searchP1 s = some (o, r)) :
    o ≠ [] ∧ (∀ c ∈ o, (c == '/') = false) ∧ r ≠ [] ∧
      (∀ c ∈ r, (c == '/') = false) ∧ (∀ c ∈ r, (c == '.') = false) := by
  induction s with
  | nil => simp [searchP1] at h
  | cons c rest ih =>
    rw [searchP1] at h
    cases hm : matchP1At (c :: rest) with
    | some p =>
      rw [hm] at h
      injection h with h'
      subst h'
      exact matchP1At_props hm
    | none =>
      rw [hm] at h
      exact ih h

theorem searchP2_props {s o r : List Char} (h : searchP2 s = some (o, r)) :
    o ≠ [] ∧ (∀ c ∈ o, (c == '/') = false) ∧ r ≠ [] ∧
      (∀ c ∈ r, (c == '/') = false) ∧ (∀ c ∈ r, (c == '.') = false) := by
  induction s with
  | nil => simp [searchP2] at h
  | cons c rest ih =>
    rw [searchP2] at h
    cases hm : matchP2At (c :: rest) with
    | some p =>
      rw [hm] at h
      injection h with h'
      subst h'
      exact matchP2At_props hm
    | none =>
      rw [hm] at h
      exact ih h

theorem pyReplaceL_skip {c₀ : Char} {old new : List Char} (fuel : Nat) (s : List Char)
    (h : ∀ a ∈ s, (a == c₀) = false) : pyReplaceL (c₀ :: old) new fuel s = s := by
  induction fuel generalizing s with
  | zero => rfl
  | succ f ih =>
    cases s with
    | nil => rfl
    | cons c t =>
      have hc : (c₀ == c) = false := by
        have hcc := h c (by simp)
        simp only [beq_eq_false_iff_ne] at hcc ⊢
        exact fun e => hcc e.symm
      simp [pyReplaceL, List.isPrefixOf, hc, ih t fun a ha => h a (by simp [ha])]

theorem extract_props {url o n : String}
    (h : extract_github_repo url = some (o, n)) :
    o.data ≠ [] ∧ (∀ c ∈ o.data, (c == '/') = false) ∧ n.data ≠ [] ∧
      (∀ c ∈ n.data, (c == '/') = false) ∧ (∀ c ∈ n.data, (c == '.') = false) := by
  have hrepl : ∀ r : List Char, (∀ c ∈ r, (c == '.') = false) →
      pyReplace (String.mk r) ".git" "" = String.mk r := by
    intro r hr
    rw [pyReplace, if_neg (by decide : ¬((".git" : String) == "") = true)]
    show String.mk (pyReplaceL ('.' :: ['g', 'i', 't']) [] (r.length + 1) r) = String.mk r
    exact congrArg String.mk (pyReplaceL_skip _ r hr)
  unfold extract_github_repo at h
  split at h
  case isTrue => exact absurd h (by simp)
  case isFalse =>
    split at h
    case h_1 p1 p2 heq =>
      obtain ⟨q1, q2, q3, q4, q5⟩ := searchP1_props heq
      rw [hrepl p2 q5] at h
      injection h with h'
      injection h' with ho hn
      subst ho
      subst hn
      exact ⟨q1, q2, q3, q4, q5⟩
    case h_2 =>
      split at h
      case h_1 p1 p2 heq2 =>
        obtain ⟨q1, q2, q3, q4, q5⟩ := searchP2_props heq2
        rw [hrepl p2 q5] at h
        injection h with h'
        injection h' with ho hn
        subst ho
        subst hn
        exact ⟨q1, q2, q3, q4, q5⟩
      case h_2 => exact absurd h (by simp)

/-! ## Idempotence of `extract_github_repo` on its canonical output -/

theorem matchGroups_feedback {o n : List Char} (ho : o ≠ [])
    (ho2 : ∀ a ∈ o, (a == '/') = false) (hn : n ≠ [])
    (hn2 : ∀ a ∈ n, (a == '/') = false) (hn3 : ∀ a ∈ n, (a == '.') = false) :
    matchGroups (o ++ '/' :: n) = some (o, n) := by
  have ht : (o ++ '/' :: n).takeWhile (fun a => !(a == '/')) = o := by
    rw [takeWhile_append_all _ fun a ha => by simp [ho2 a ha]]
    simp [List.takeWhile_cons]
  have hd : (o ++ '/' :: n).dropWhile (fun a => !(a == '/')) = '/' :: n := by
    rw [dropWhile_append_all _ fun a ha => by simp [ho2 a ha]]
    simp [List.dropWhile_cons]
  have hr : n.takeWhile (fun a => !(a == '/' || a == '.')) = n :=
    takeWhile_all fun a ha => by simp [hn2 a ha, hn3 a ha]
  unfold matchGroups
  rw [hd]
  dsimp only
  rw [ht, hr]
  have hoe : o.isEmpty = false := by
    cases o with
    | nil => exact absurd rfl ho
    | cons a t => rfl
  have hne : n.isEmpty = false := by
    cases n with
    | nil => exact absurd rfl hn
    | cons a t => rfl
  simp [hoe, hne]

theorem matchP1At_anchor {o n : List Char} (ho : o ≠ [])
    (ho2 : ∀ a ∈ o, (a == '/') = false) (hn : n ≠ [])
    (hn2 : ∀ a ∈ n, (a == '/') = false) (hn3 : ∀ a ∈ n, (a == '.') = false) :
    matchP1At ('g' :: 'i' :: 't' :: 'h' :: 'u' :: 'b' :: '.' :: 'c' :: 'o' :: 'm' :: '/'
      :: (o ++ '/' :: n)) = some (o, n) := by
  have hpre : ghChars.isPrefixOf ('g' :: 'i' :: 't' :: 'h' :: 'u' :: 'b' :: '.' :: 'c' :: 'o'
      :: 'm' :: '/' :: (o ++ '/' :: n)) = true := by
    simp [ghChars, List.isPrefixOf]
  unfold matchP1At
  rw [hpre]
  simp only [if_true]
  show (if ('/' == ':' || '/' == '/') = true then matchGroups (o ++ '/' :: n) else none)
      = some (o, n)
  rw [if_pos (by decide)]
  exact matchGroups_feedback ho ho2 hn hn2 hn3

theorem matchP1At_cons_ne {c : Char} (s : List Char) (hc : (c == 'g') = false) :
    matchP1At (c :: s) = none := by
  have hg : ('g' == c) = false := by
    simp only [beq_eq_false_iff_ne] at hc ⊢
    exact fun e => hc e.symm
  simp [matchP1At, ghChars, List.isPrefixOf, hg]

theorem searchP1_cons_ne {c : Char} (s : List Char) (hc : (c == 'g') = false) :
    searchP1 (c :: s) = searchP1 s := by
  rw [searchP1, matchP1At_cons_ne s hc]

theorem extract_feedback {url o n : String}
    (h : extract_github_repo url = some (o, n)) :
    extract_github_repo ("https://github.com/" ++ o ++ "/" ++ n) = some (o, n) := by
  obtain ⟨q1, q2, q3, q4, q5⟩ := extract_props h
  have hdata : ("https://github.com/" ++ o ++ "/" ++ n).data
      = 'h' :: 't' :: 't' :: 'p' :: 's' :: ':' :: '/' :: '/' :: 'g' :: 'i' :: 't' :: 'h'
        :: 'u' :: 'b' :: '.' :: 'c' :: 'o' :: 'm' :: '/' :: (o.data ++ '/' :: n.data) := by
    show ("https://github.com/".data ++ o.data) ++ "/".data ++ n.data = _
    rw [show ("https://github.com/").data = 'h' :: 't' :: 't' :: 'p' :: 's' :: ':' :: '/'
      :: '/' :: 'g' :: 'i' :: 't' :: 'h' :: 'u' :: 'b' :: '.' :: 'c' :: 'o' :: 'm' :: '/'
      :: [] from rfl, show ("/").data = ['/'] from rfl]
    simp
  have hne : (("https://github.com/" ++ o ++ "/" ++ n) == "") = false := by
    simp only [beq_eq_false_iff_ne]
    intro e
    have he := congrArg String.data e
    rw [hdata] at he
    simp at he
  have hsearch : searchP1 (("https://github.com/" ++ o ++ "/" ++ n)).data
      = some (o.data, n.data) := by
    rw [hdata]
    rw [searchP1_cons_ne _ (by decide), searchP1_cons_ne _ (by decide),
      searchP1_cons_ne _ (by decide), searchP1_cons_ne _ (by decide),
      searchP1_cons_ne _ (by decide), searchP1_cons_ne _ (by decide),
      searchP1_cons_ne _ (by decide), searchP1_cons_ne _ (by decide)]
    rw [searchP1, matchP1At_anchor q1 q2 q3 q4 q5]
  rw [extract_github_repo, if_neg (by simp [hne]), hsearch]
  have hrepl : pyReplace (String.mk n.data) ".git" "" = String.mk n.data := by
    rw [pyReplace, if_neg (by decide : ¬((".git" : String) == "") = true)]
    show String.mk (pyReplaceL ('.' :: ['g', 'i', 't']) [] (n.data.length + 1) n.data)
        = String.mk n.data
    exact congrArg String.mk (pyReplaceL_skip _ n.data q5)
  show some (String.mk o.data, pyReplace (String.mk n.data) ".git" "") = some (o, n)
  rw [hrepl]

/-- C3: `extract_repo_id` (`extract_github_repo`) is idempotent on its
canonical output: for every `(owner, name)` it returns, applying it to
`https://github.com/{owner}/{name}` yields the same pair; and the HTTPS,
SSH, and `.git`-suffixed forms of the same repository all normalize to the
identical pair, e.g. `git@github.com:lodash/lodash.git` yields
`("lodash", "lodash")`. -/
theorem C3_extract_repo_id_idempotent :
    (∀ url o n : String, extract_github_repo url = some (o, n) →
      extract_github_repo ("https://github.com/" ++ o ++ "/" ++ n) = some (o, n))
    ∧ extract_github_repo "https://github.com/lodash/lodash" = some ("lodash", "lodash")
    ∧ extract_github_repo "git@github.com:lodash/lodash.git" = some ("lodash", "lodash")
    ∧ extract_github_repo "https://github.com/lodash/lodash.git" = some ("lodash", "lodash") :=
  ⟨fun _ _ _ h => extract_feedback h, by rfl, by rfl, by rfl⟩

/-- Witness for C3: the idempotence statement applied to the concrete SSH
form of the lodash repository. -/
theorem C3_extract_repo_id_idempotent_witness :
    extract_github_repo ("https://github.com/" ++ "lodash" ++ "/" ++ "lodash")
      = some ("lodash", "lodash") :=
  C3_extract_repo_id_idempotent.1 "git@github.com:lodash/lodash.git" "lodash" "lodash" (by rfl)

/-- C10: the repository-name component returned by `extract_github_repo` is
always nonempty and free of dots and slashes (it is captured by the regex
group `[^/\.]+`); in particular a repository name containing a dot is
truncated at the first dot: `https://github.com/vercel/next.js` yields
`("vercel", "next")`, not `("vercel", "next.js")`. -/
theorem C10_repo_name_never_contains_dot :
    (∀ url o n : String, extract_github_repo url = some (o, n) →
      n ≠ "" ∧ (∀ c ∈ n.data, (c == '.') = false) ∧ (∀ c ∈ n.data, (c == '/') = false))
    ∧ extract_github_repo "https://github.com/vercel/next.js" = some ("vercel", "next") := by
  constructor
  · intro url o n h
    obtain ⟨q1, q2, q3, q4, q5⟩ := extract_props h
    refine ⟨fun e => q3 ?_, q5, q4⟩
    rw [e]
  · rfl

/-- Witness for C10: the dot-free property applied to the concrete
`next.js` URL. -/
theorem C10_repo_name_never_contains_dot_witness :
    ("next" : String) ≠ "" ∧ (∀ c ∈ ("next" : String).data, (c == '.') = false)
      ∧ (∀ c ∈ ("next" : String).data, (c == '/') = false) :=
  C10_repo_name_never_contains_dot.1 "https://github.com/vercel/next.js" "vercel" "next" (by rfl)

/-- C5: `fetch_url` classifies every failure exactly as specified and never
raises (its model is total): an HTTP 404 appends exactly one entry to the
errors list and returns `none`; an HTTP 403 appends exactly one warning and
returns `none`; any other HTTP error code, network-level failure, other
exception, or malformed JSON body appends exactly one warning and returns
`none`. -/
theorem C5_fetch_url_failure_classification (url : String) (st : EvalState) :
    (fetch_url (.httpError 404) url st
      = (none, { st with errors := st.errors ++ [s!"Resource not found: {url}"] }))
    ∧ (fetch_url (.httpError 403) url st
      = (none, { st with warnings := st.warnings ++ [s!"Access forbidden (rate limit?): {url}"] }))
    ∧ (∀ code : Nat, code ≠ 404 → code ≠ 403 →
      fetch_url (.httpError code) url st
        = (none, { st with warnings := st.warnings ++ [s!"HTTP {code} error fetching {url}"] }))
    ∧ (∀ m : String, fetch_url (.urlError m) url st
      = (none, { st with warnings := st.warnings ++ [s!"Network error fetching {url}: {m}"] }))
    ∧ (∀ m : String, fetch_url (.otherExc m) url st
      = (none, { st with warnings := st.warnings ++ [s!"Error fetching {url}: {m}"] }))
    ∧ (∀ body : String, json_loads body = none →
      fetch_url (.success body) url st
        = (none, { st with warnings := st.warnings ++ [s!"Invalid JSON from {url}: "] })) := by
  refine ⟨rfl, rfl, ?_, fun m => rfl, fun m => rfl, ?_⟩
  · intro code h404 h403
    have b404 : (code == 404) = false := by simpa using h404
    have b403 : (code == 403) = false := by simpa using h403
    simp [fetch_url, b404, b403, addWarning]
  · intro body hb
    simp [fetch_url, hb, addWarning]

/-- Witness for C5: the classification at a concrete URL, state, HTTP code
500, network error text, and a concretely malformed body. -/
theorem C5_fetch_url_failure_classification_witness :
    (fetch_url (.httpError 500) "u" (EvalState.mk [] [])
      = (none, { EvalState.mk [] [] with warnings := [] ++ [s!"HTTP {500} error fetching u"] }))
    ∧ (fetch_url (.success "not json") "u" (EvalState.mk [] [])
      = (none, { EvalState.mk [] [] with warnings := [] ++ [s!"Invalid JSON from u: "] })) := by
  obtain ⟨h1, h2, h3, h4, h5, h6⟩ := C5_fetch_url_failure_classification "u" (EvalState.mk [] [])
  exact ⟨h3 500 (by decide) (by decide), h6 "not json" (by rfl)⟩

/-- C4: for every ecosystem string outside {npm, pypi, cargo, go} after
lowercasing, `evaluate()` returns a result whose errors list contains
exactly one entry — `Unsupported ecosystem: <tag>`, which begins with the
phrase "Unsupported ecosystem" — and whose registry_data, github_data,
security_data and dependency_footprint sections are all empty mappings
(the early return precedes even the stub collectors). -/
theorem C4_unsupported_ecosystem (env : EvalEnv) (pkg eco : String)
    (h1 : pyLower eco ≠ "npm") (h2 : pyLower eco ≠ "pypi")
    (h3 : pyLower eco ≠ "cargo") (h4 : pyLower eco ≠ "go") :
    evaluate env pkg eco = .ok (EvalResult.mk pkg (pyLower eco) env.timestamp [] [] [] []
        [s!"Unsupported ecosystem: {pyLower eco}"] [])
    ∧ ("Unsupported ecosystem").data.isPrefixOf
        (s!"Unsupported ecosystem: {pyLower eco}").data = true := by
  constructor
  · have b1 : (pyLower eco == "npm") = false := by simpa using h1
    have b2 : (pyLower eco == "pypi") = false := by simpa using h2
    have b3 : (pyLower eco == "cargo") = false := by simpa using h3
    have b4 : (pyLower eco == "go") = false := by simpa using h4
    simp [evaluate, b1, b2, b3, b4, addError]
    rfl
  · show ("Unsupported ecosystem").data.isPrefixOf
        ((("Unsupported ecosystem: ").data ++ (pyLower eco).data) ++ []) = true
    rw [List.append_nil]
    exact isPrefixOf_extend _ (by decide)

/-- Witness for C4: the unsupported-ecosystem result at the concrete
argument `rubygems` (already lowercase) with every external call stubbed
out. -/
theorem C4_unsupported_ecosystem_witness :
    evaluate envStub "x" "rubygems" = .ok (EvalResult.mk "x" "rubygems"
        envStub.timestamp [] [] [] [] ["Unsupported ecosystem: rubygems"] [])
    ∧ ("Unsupported ecosystem").data.isPrefixOf
        ("Unsupported ecosystem: rubygems").data = true :=
  C4_unsupported_ecosystem envStub "x" "rubygems" (by decide) (by decide) (by decide) (by decide)

theorem except_bind_ok {α β : Type} {x : Except PyErr α} {f : α → Except PyErr β} {b : β}
    (h : (x >>= f) = .ok b) : ∃ a, x = .ok a ∧ f a = .ok b := by
  cases x with
  | error e => simp [Bind.bind, Except.bind] at h
  | ok a => exact ⟨a, rfl, by simpa [Bind.bind, Except.bind] using h⟩

/-- Counterexample for C1: the command-line entry point rejects the
ecosystem argument `NPM` — argparse validates against the lowercase
`choices` list by exact string comparison, so the case variant never
reaches the evaluator and the process exits with a usage error. -/
theorem C1_counterexample_cli_rejects_NPM :
    mainEvaluator envStub "lodash" "NPM" = .usageError := by rfl

/-- C1 (amended): the CLI accepts exactly the four lowercase ecosystem
strings and rejects every other spelling, including uppercase variants such
as `NPM`; below the CLI, however, the `DependencyEvaluator` constructor
lowercases its ecosystem argument, so evaluation depends on the argument
only through its lowercasing and the result's ecosystem tag is the
lowercased string. -/
theorem C1_amended_cli_case_sensitive :
    (∀ (env : EvalEnv) (pkg eco : String), eco ∉ ecosystemChoices →
      mainEvaluator env pkg eco = .usageError)
    ∧ (∀ (env : EvalEnv) (pkg e₁ e₂ : String), pyLower e₁ = pyLower e₂ →
      evaluate env pkg e₁ = evaluate env pkg e₂)
    ∧ (∀ (env : EvalEnv) (pkg eco : String) (r : EvalResult),
      evaluate env pkg eco = .ok r → r.ecosystem = pyLower eco) := by
  refine ⟨?_, ?_, ?_⟩
  · intro env pkg eco h
    have hb : ecosystemChoices.contains eco = false := by
      rw [show ecosystemChoices.contains eco = decide (eco ∈ ecosystemChoices) from
        List.elem_eq_mem eco ecosystemChoices]
      simp [h]
    simp only [mainEvaluator, hb, Bool.false_eq_true, if_false]
  · intro env pkg e₁ e₂ h
    unfold evaluate
    rw [h]
  · intro env pkg eco r h
    unfold evaluate at h
    dsimp only at h
    repeat' first
      | (obtain ⟨_, _, h⟩ := except_bind_ok h)
      | (split at h)
    all_goals simp only [pure, Except.pure, Except.ok.injEq] at h
    all_goals rw [← h]

/-- Witness for the amended C1: `PyPI` is rejected at the CLI, evaluation of
`NPM` coincides with evaluation of `npm`, and a completed `go` run carries
the lowercased ecosystem tag. -/
theorem C1_amended_cli_case_sensitive_witness :
    mainEvaluator envStub "lodash" "PyPI" = .usageError
    ∧ evaluate envStub "lodash" "NPM" = evaluate envStub "lodash" "npm"
    ∧ (EvalResult.mk "x" "go" "T" [] [] [] [("direct_dependencies", .num 0),
        ("total_dependencies", .num 0), ("tree_depth", .num 1)] [] []).ecosystem
      = pyLower "go" :=
  ⟨C1_amended_cli_case_sensitive.1 envStub "lodash" "PyPI" (by decide),
   C1_amended_cli_case_sensitive.2.1 envStub "lodash" "NPM" "npm" (by decide),
   C1_amended_cli_case_sensitive.2.2 envStub "x" "go"
     (EvalResult.mk "x" "go" "T" [] [] [] [("direct_dependencies", .num 0),
       ("total_dependencies", .num 0), ("tree_depth", .num 1)] [] []) (by rfl)⟩

/-- Counterexample for C8: when `npm view` exits 0 but prints a JSON array
(as it does when the package argument names a version range), `json.loads`
yields a list, the subsequent `.get` raises an uncaught `AttributeError`,
and the process terminates with a traceback: no JSON document is printed
even though the errors list is empty, and the interpreter exits with
status 1. -/
theorem C8_counterexample_crash_prints_no_json :
    mainEvaluator envNpmArray "leftpad" "npm" = .crashed .attributeError := by rfl

/-- C8 (amended): for every evaluation run that completes without an
uncaught exception, the JSON result document is printed to standard output
regardless of error status, and the exit code is 1 exactly when the
result's errors list is nonempty and 0 otherwise; a run whose registry
payload parses to an unexpectedly shaped value instead aborts with a
traceback and prints nothing. -/
theorem C8_amended_exit_code (env : EvalEnv) (pkg eco : String) (r : EvalResult)
    (h1 : eco ∈ ecosystemChoices) (h2 : evaluate env pkg eco = .ok r) :
    mainEvaluator env pkg eco = .finished r (if r.errors.isEmpty then 0 else 1)
    ∧ (r.errors = [] → mainEvaluator env pkg eco = .finished r 0)
    ∧ (r.errors ≠ [] → mainEvaluator env pkg eco = .finished r 1) := by
  have hb : ecosystemChoices.contains eco = true := by
    rw [show ecosystemChoices.contains eco = decide (eco ∈ ecosystemChoices) from
      List.elem_eq_mem eco ecosystemChoices]
    simp [h1]
  refine ⟨?_, ?_, ?_⟩
  · simp [mainEvaluator, h1, h2]
  · intro he
    simp [mainEvaluator, h1, h2, he]
  · intro he
    simp [mainEvaluator, h1, h2, he]

/-- Witness for the amended C8: a completed `go` run with every external
call failing benignly finishes with exit status 0 and its document
printed. -/
theorem C8_amended_exit_code_witness :
    mainEvaluator envStub "x" "go" = .finished (EvalResult.mk "x" "go" "T" [] [] []
      [("direct_dependencies", .num 0), ("total_dependencies", .num 0),
        ("tree_depth", .num 1)] [] []) 0 := by
  have h := (C8_amended_exit_code envStub "x" "go" (EvalResult.mk "x" "go" "T" [] [] []
    [("direct_dependencies", .num 0), ("total_dependencies", .num 0),
      ("tree_depth", .num 1)] [] []) (by decide) (by rfl)).2.1 (by rfl)
  exact h

set_option maxRecDepth 10000 in
/-- Counterexample for C2: when the community-health lookup times out,
`run_command` itself appends a timeout warning to the shared warnings list
(even though the gather routine adds none and the `community_health` key
stays absent), so "no entry is appended to the warnings list" fails for the
timeout failure mode. -/
theorem C2_counterexample_timeout_warns :
    (gather_github_data ghCommunityTimeout (.str "https://github.com/lodash/lodash")
        (EvalState.mk [] [])).map
      (fun p => (p.2.warnings, dictMem p.1 "community_health"))
    = .ok (["Command timed out after 30s: gh api repos/lodash/lodash/community/profile"],
        false) := by rfl

/-- C2 (amended): each of the three supplementary GitHub lookups leaves the
warnings list untouched and its key absent when its command completes with
a non-zero exit status, empty or unparsable output (community health), a
non-numeric output (contributor count), or blank output (SPDX license); but
when the underlying command times out, the executable is missing, or the
invocation raises otherwise, `run_command` itself appends one warning —
the key is still absent in every failure mode. -/
theorem C2_amended_supplementary_lookups (path : String) (data : JObj) (st : EvalState) :
    (∀ (rc : Int) (out err : String), (rc ≠ 0 ∨ out = "" ∨ json_loads out = none) →
      communityBlock (.completed rc out err) path data st = .ok (data, st))
    ∧ communityBlock .timedOut path data st
        = .ok (data, addWarning st (timedOutMsg 30 (String.intercalate " " ["gh", "api", path])))
    ∧ communityBlock .notFound path data st
        = .ok (data, addWarning st (notFoundMsg "gh"))
    ∧ (∀ m : String, communityBlock (.exc m) path data st
        = .ok (data, addWarning st
            (cmdFailedMsg (String.intercalate " " ["gh", "api", path]) m)))
    ∧ (∀ (rc : Int) (out err : String), (rc ≠ 0 ∨ pyIsDigit (pyStrip out) = false) →
      contributorsBlock (.completed rc out err) path data st = (data, st))
    ∧ contributorsBlock .timedOut path data st
        = (data, addWarning st
            (timedOutMsg 30 (String.intercalate " " ["gh", "api", path, "--jq", "length"])))
    ∧ contributorsBlock .notFound path data st
        = (data, addWarning st (notFoundMsg "gh"))
    ∧ (∀ (rc : Int) (out err : String), (rc ≠ 0 ∨ pyStrip out = "") →
      licenseBlock (.completed rc out err) path data st = (data, st))
    ∧ licenseBlock .timedOut path data st
        = (data, addWarning st
            (timedOutMsg 30 (String.intercalate " " ["gh", "api", path, "--jq", ".license.spdx_id"])))
    ∧ licenseBlock .notFound path data st
        = (data, addWarning st (notFoundMsg "gh")) := by
  refine ⟨?_, by rfl, by rfl, fun m => by rfl, ?_, by rfl, by rfl, ?_, by rfl, by rfl⟩
  · intro rc out err h
    rcases h with h | h | h
    · have hb : (rc == 0) = false := by simpa using h
      simp [communityBlock, run_command, hb]
      rfl
    · subst h
      simp [communityBlock, run_command]
      rfl
    · simp only [communityBlock, run_command]
      split
      · rw [h]
        rfl
      · rfl
  · intro rc out err h
    rcases h with h | h
    · have hb : (rc == 0) = false := by simpa using h
      simp [contributorsBlock, run_command, hb]
    · simp [contributorsBlock, run_command, h]
  · intro rc out err h
    rcases h with h | h
    · have hb : (rc == 0) = false := by simpa using h
      simp [licenseBlock, run_command, hb]
    · simp [licenseBlock, run_command, h]

/-- Witness for the amended C2: the three supplementary blocks at concrete
outcomes — non-zero exit, unparsable output, a timeout, non-numeric and
blank outputs. -/
theorem C2_amended_supplementary_lookups_witness :
    communityBlock (.completed 1 "" "") "p" [] (EvalState.mk [] [])
        = .ok ([], EvalState.mk [] [])
    ∧ communityBlock (.completed 0 "xx" "") "p" [] (EvalState.mk [] [])
        = .ok ([], EvalState.mk [] [])
    ∧ communityBlock .timedOut "p" [] (EvalState.mk [] [])
        = .ok ([], addWarning (EvalState.mk [] [])
            "Command timed out after 30s: gh api p")
    ∧ contributorsBlock (.completed 0 "abc" "") "p" [] (EvalState.mk [] [])
        = ([], EvalState.mk [] [])
    ∧ licenseBlock (.completed 0 "  " "") "p" [] (EvalState.mk [] [])
        = ([], EvalState.mk [] []) := by
  obtain ⟨h1, h2, h3, h4, h5, h6, h7, h8, h9, h10⟩ :=
    C2_amended_supplementary_lookups "p" [] (EvalState.mk [] [])
  exact ⟨h1 1 "" "" (Or.inl (by decide)), h1 0 "xx" "" (Or.inr (Or.inr (by rfl))), h2,
    h5 0 "abc" "" (Or.inr (by rfl)), h8 0 "  " "" (Or.inr (by rfl))⟩

set_option maxRecDepth 10000 in
/-- C6: for every list of input sessions and each of the five patterns, the
reported count equals the total number of matching sessions (uncapped), the
examples list has length `min count 5`, and the examples are exactly the
first matches in input order; in particular ten sessions that each match
`git_commit_push` yield count 10 and exactly five stored examples. -/
theorem C6_pattern_counts_and_examples :
    (∀ (files : List SessionFile) (p : PatternId),
      ((analyze_sessions files).patterns.get p).count
          = ((sessionsData files).filter (patternPred p)).length
        ∧ ((analyze_sessions files).patterns.get p).examples.length
          = min ((analyze_sessions files).patterns.get p).count 5
        ∧ ((analyze_sessions files).patterns.get p).examples
          = (((sessionsData files).filter (patternPred p)).take 5).map toExample)
    ∧ (analyze_sessions tenGitSessions).patterns.git_commit_push.count = 10
    ∧ (analyze_sessions tenGitSessions).patterns.git_commit_push.examples.length = 5 := by
  refine ⟨?_, by decide, by decide⟩
  intro files p
  have hget : (analyze_sessions files).patterns.get p
      = patternEntry (sessionsData files) p := by
    cases p <;> rfl
  rw [hget]
  unfold patternEntry patternMatchesList
  refine ⟨by simp, ?_, ?_⟩
  · simp [List.length_take, Nat.min_comm]
  · exact (List.map_take toExample ((sessionsData files).filter (patternPred p)) 5).symm

theorem jstr_check (x : Option JValue) (k : String) :
    (match x with | some (.str t) => t == k | _ => false) = true ↔ x = some (.str k) := by
  rcases x with _ | v
  · simp
  · rcases v with _ | b | q | t | l | l2 | _ | b2 <;> simp

/-- C7: a parsed log record increments `total_user_prompts` (is classified
`counted`) iff its top-level `type` is `"user"`, its nested message role is
`"user"`, it is not flagged `isMeta` (its `isMeta` value is falsy), its
content is a plain string, the content does not start with `<command` or
`<local-command`, and the content is longer than 20 characters; a record
failing any condition is never counted. -/
theorem C7_prompt_classification (data : JValue) (s : String) :
    processRecord data = .counted s ↔
      (recTopType data = some (.str "user")
        ∧ recRole data = some (.str "user")
        ∧ truthy (recIsMeta data) = false
        ∧ recContent data = some (.str s)
        ∧ pyStartsWith s "<command" = false
        ∧ pyStartsWith s "<local-command" = false
        ∧ 20 < s.length) := by
  constructor
  · intro h
    unfold processRecord at h
    cases data
    case null => exact absurd h (by simp)
    case bool b => exact absurd h (by simp)
    case num q => exact absurd h (by simp)
    case str t => exact absurd h (by simp)
    case arr l => exact absurd h (by simp)
    case nan => exact absurd h (by simp)
    case inf b2 => exact absurd h (by simp)
    case obj dl =>
    dsimp only at h
    split at h
    case isFalse => exact absurd h (by simp)
    case isTrue htype =>
    rw [jstr_check] at htype
    cases hm : (jlook dl "message").getD (.obj []) <;> rw [hm] at h
    case null => exact absurd h (by simp)
    case bool mb => exact absurd h (by simp)
    case num mq => exact absurd h (by simp)
    case str ms => exact absurd h (by simp)
    case arr ml => exact absurd h (by simp)
    case nan => exact absurd h (by simp)
    case inf mi => exact absurd h (by simp)
    case obj mo =>
    dsimp only at h
    split at h
    case isFalse => exact absurd h (by simp)
    case isTrue hcond =>
    rw [Bool.and_eq_true] at hcond
    obtain ⟨hrole, hmeta⟩ := hcond
    rw [jstr_check] at hrole
    cases hc : (jlook mo "content").getD (.str "") <;> rw [hc] at h
    case null => exact absurd h (by simp)
    case bool cb => exact absurd h (by simp)
    case num cq => exact absurd h (by simp)
    case arr cl => exact absurd h (by simp)
    case obj co => exact absurd h (by simp)
    case nan => exact absurd h (by simp)
    case inf ci => exact absurd h (by simp)
    case str cs =>
    dsimp only at h
    split at h
    case isFalse => exact absurd h (by simp)
    case isTrue hpre =>
    rw [Bool.and_eq_true] at hpre
    split at h
    case isFalse => exact absurd h (by simp)
    case isTrue hlen =>
    injection h with hcs
    subst hcs
    refine ⟨by simp [recTopType, htype], ?_, by simpa [recIsMeta] using hmeta,
      ?_, by simpa using hpre.1, by simpa using hpre.2, hlen⟩
    · unfold recRole recMessage
      dsimp only
      rw [hm]
      exact hrole
    · unfold recContent recMessage
      dsimp only
      rw [hm]
      dsimp only
      rw [hc]
  · rintro ⟨c1, c2, c3, c4, c5, c6, c7⟩
    cases data
    case null => exact absurd c1 (by simp [recTopType])
    case bool b => exact absurd c1 (by simp [recTopType])
    case num q => exact absurd c1 (by simp [recTopType])
    case str t => exact absurd c1 (by simp [recTopType])
    case arr l => exact absurd c1 (by simp [recTopType])
    case nan => exact absurd c1 (by simp [recTopType])
    case inf b2 => exact absurd c1 (by simp [recTopType])
    case obj dl =>
    unfold recTopType at c1
    unfold recRole recMessage at c2
    unfold recIsMeta at c3
    unfold recContent recMessage at c4
    dsimp only at c1 c2 c3 c4
    cases hm : (jlook dl "message").getD (.obj []) <;> rw [hm] at c2 c4
    case null => exact absurd c2 (by simp)
    case bool mb => exact absurd c2 (by simp)
    case num mq => exact absurd c2 (by simp)
    case str ms => exact absurd c2 (by simp)
    case arr ml => exact absurd c2 (by simp)
    case nan => exact absurd c2 (by simp)
    case inf mi => exact absurd c2 (by simp)
    case obj mo =>
    dsimp only at c2 c4
    injection c4 with c4'
    unfold processRecord
    dsimp only
    rw [if_pos (by rw [jstr_check]; exact c1), hm]
    dsimp only
    rw [if_pos ?_]
    · rw [c4']
      dsimp only
      rw [if_pos (by simp [c5, c6]), if_pos c7]
    · rw [Bool.and_eq_true]
      exact ⟨by rw [jstr_check]; exact c2, by simp [c3]⟩

set_option maxRecDepth 10000 in
/-- C9: analyzing an empty list of input session files and rendering the
result never raises — every partial operation in `generate_report` is
guarded in the source and the translation is total — and the produced
report begins with the literal heading
`# Claude Code Workflow Analysis Report` while every summary count (total
sessions analyzed, sessions with user prompts, total user prompts, and all
five pattern counts) is zero. -/
theorem C9_empty_input_report :
    (analyze_sessions []).summary.total_sessions_analyzed = 0
    ∧ (analyze_sessions []).summary.sessions_with_user_prompts = 0
    ∧ (analyze_sessions []).summary.total_user_prompts = 0
    ∧ (∀ p : PatternId, ((analyze_sessions []).patterns.get p).count = 0)
    ∧ ("# Claude Code Workflow Analysis Report").data.isPrefixOf
        (generate_report (analyze_sessions [])).data = true := by
  refine ⟨rfl, rfl, rfl, ?_, ?_⟩
  · intro p
    cases p <;> rfl
  · decide
